import Mathlib

/-!
# kube-optimizer: collection and analysis engine

A shallow embedding of `cmd/collector/main.go` (the statistics functions
`calculateStats` and `calculateStatsInt`, the recommendation computed by
`analyzeContainer`, and the collector methods `Collect`, `storePod`,
`storeContainer`, `storeMetrics`, `runAnalysis`, `analyzeContainer` over the
tables of `internal/database/db.go`) and of the patch rendering
`generateResourcePatch` of `web/handlers/handlers.go`, together with theorems
about them.

Modelling conventions

* `float64` values are exact rationals (`ℚ`): finite, non-NaN values, with the
  rounding error of each floating-point operation left out (exact arithmetic).
* `int64` values are integers (`Int`); an addition or subtraction of the source
  is followed by `wrapInt64`, the two's-complement wrap-around, and the
  predicate `InInt64` says that an integer is a value of the type.
* `int64(f)` for a float `f` truncates toward zero; Go leaves the result
  implementation-dependent when the truncated value is outside the type, so the
  conversion takes that result as the parameter `ovf`.
* Slices are lists; `sort.Float64s` and `sort.Slice` with `<` are modelled by an
  ascending sort (the ascending arrangement of values of a linear order is
  unique, so the algorithm does not matter).
* `analyzeContainer` is the computation of `Collector.analyzeContainer` on the
  results of its two queries; `Collector.analyzeContainer` is the method itself:
  it runs the queries on the database, calls the computation and executes the
  two `INSERT` statements with the fields of the record the computation returns.
* The database is a record of tables (`Store`); each SQL statement of the
  collector is a function on it. The outcome of every call that leaves the
  process is fixed by a `World`.
* `fmt.Sprintf("%.0f", f)` rounds to the nearest integer, a tie going to the
  even neighbour, and prints the result in decimal; the patch, a nested map, is
  the record of its leaves.
-/

namespace KubeOptimizer

/-! ## Machine numbers -/

/-- The values of Go's `int64`. -/
def InInt64 (x : Int) : Prop := -2 ^ 63 ≤ x ∧ x < 2 ^ 63

instance decidableInInt64 (x : Int) : Decidable (InInt64 x) :=
  inferInstanceAs (Decidable (-2 ^ 63 ≤ x ∧ x < 2 ^ 63))

/-- Two's-complement wrap-around of an integer into `int64`. -/
def wrapInt64 (x : Int) : Int := (x + 2 ^ 63) % 2 ^ 64 - 2 ^ 63

/-- Truncation of a rational toward zero. -/
def truncQ (q : ℚ) : Int := if 0 ≤ q then ⌊q⌋ else ⌈q⌉

/-- Go's conversion `int64(f)` of a float: truncation toward zero; `ovf` is the
implementation-dependent result when the truncated value is not an `int64`. -/
def f64ToInt64 (ovf : Int) (q : ℚ) : Int :=
  if InInt64 (truncQ q) then truncQ q else ovf

/-! ## Statistics engine -/

/-- The four results `(avg, max, p95, p99)` of the statistics functions. -/
structure Stats (α : Type) where
  avg : α
  max : α
  p95 : α
  p99 : α

/-- Model of `sort.Float64s`: ascending sort. -/
def sortFloat64s (l : List ℚ) : List ℚ := l.insertionSort (· ≤ ·)

/-- Model of `sort.Slice(sorted, func(i, j) bool { return sorted[i] < sorted[j] })`:
ascending sort. -/
def sortSlice (l : List Int) : List Int := l.insertionSort (· ≤ ·)

/-- The index computation shared by the four percentile blocks:
`idx := int(float64(n) * q); if idx >= n { idx = n - 1 }`. -/
def percentileIndex (n : Nat) (q : ℚ) : Nat :=
  let idx := ⌊(n : ℚ) * q⌋₊
  if idx ≥ n then n - 1 else idx

/-- Model of `calculateStats(values []float64) (avg, max, p95, p99 float64)`.
An index expression `sorted[i]` is `sorted.getD i 0`; every index used is in
bounds (see `percentileIndex_lt`). -/
def calculateStats (values : List ℚ) : Stats ℚ :=
  if values.length = 0 then
    { avg := 0, max := 0, p95 := 0, p99 := 0 }
  else
    let sorted := sortFloat64s values
    let sum := values.foldl (fun s v => s + v) 0
    let avg := sum / (values.length : ℚ)
    let max := sorted.getD (sorted.length - 1) 0
    let p95 := sorted.getD (percentileIndex sorted.length 0.95) 0
    let p99 := sorted.getD (percentileIndex sorted.length 0.99) 0
    { avg := avg, max := max, p95 := p95, p99 := p99 }

/-- Model of `calculateStatsInt(values []int64) (avg, max, p95, p99 int64)`.
The running sum wraps as `int64` addition does, and `/` is Go's integer
division, which truncates toward zero. -/
def calculateStatsInt (values : List Int) : Stats Int :=
  if values.length = 0 then
    { avg := 0, max := 0, p95 := 0, p99 := 0 }
  else
    let sorted := sortSlice values
    let sum := values.foldl (fun s v => wrapInt64 (s + v)) 0
    let avg := sum.tdiv (values.length : Int)
    let max := sorted.getD (sorted.length - 1) 0
    let p95 := sorted.getD (percentileIndex sorted.length 0.95) 0
    let p99 := sorted.getD (percentileIndex sorted.length 0.99) 0
    { avg := avg, max := max, p95 := p95, p99 := p99 }


/-! ## Recommendation engine -/

/-- The two fields of `config.AnalysisConfig` that `analyzeContainer` reads. -/
structure AnalysisConfig where
  CPUCostPerCore : ℚ
  MemoryCostPerGB : ℚ

/-- The values `analyzeContainer` computes and hands to the `INSERT` statements
(`sampleCount` is `len(cpuValues)`, which the reason text of the recommendation
cites). -/
structure Analysis where
  sampleCount : Nat
  avgCPU : ℚ
  maxCPU : ℚ
  p95CPU : ℚ
  p99CPU : ℚ
  avgMem : Int
  maxMem : Int
  p95Mem : Int
  p99Mem : Int
  currentCPU : ℚ
  currentMem : Int
  recommendedCPU : ℚ
  recommendedMem : Int
  cpuWaste : ℚ
  memWaste : ℚ
  monthlySavings : ℚ
  status : String
  confidence : String

/-- Model of the computation of `Collector.analyzeContainer`.

`rows` are the rows of the metrics query that were scanned successfully, in
order (`cpu_usage`, `memory_usage`); `request` is the result of the query for
the latest resource request, `none` when that query returns an error. The
result is the error `no metrics data`, or the values passed to the inserts. -/
def analyzeContainer (ovf : Int) (cfg : AnalysisConfig) (rows : List (ℚ × Int))
    (request : Option (ℚ × Int)) : Except String Analysis :=
  let cpuValues := rows.map Prod.fst
  let memValues := rows.map Prod.snd
  if cpuValues.length = 0 then
    Except.error "no metrics data"
  else
    -- Calculate statistics
    let cpu := calculateStats cpuValues
    let mem := calculateStatsInt memValues
    -- Get current resource requests
    let currentCPU : ℚ := match request with
      | some r => r.1
      | none => 0.1
    let currentMem : Int := match request with
      | some r => r.2
      | none => 128 * 1024 * 1024
    -- Calculate recommended resources (P95 + 20% buffer)
    let recommendedCPU : ℚ := cpu.p95 * 1.2
    let recommendedMem : Int := f64ToInt64 ovf ((mem.p95 : ℚ) * 1.2)
    -- Ensure minimums
    let recommendedCPU : ℚ := if recommendedCPU < 0.01 then 0.01 else recommendedCPU
    let recommendedMem : Int :=
      if recommendedMem < 32 * 1024 * 1024 then 32 * 1024 * 1024 else recommendedMem
    -- Calculate waste percentages
    let cpuWaste : ℚ :=
      if currentCPU > 0 then ((currentCPU - recommendedCPU) / currentCPU) * 100 else 0
    let memWaste : ℚ :=
      if currentMem > 0 then
        ((wrapInt64 (currentMem - recommendedMem) : Int) : ℚ) / (currentMem : ℚ) * 100
      else 0
    -- Clamp waste to reasonable bounds
    let cpuWaste : ℚ := if cpuWaste < -100 then -100 else cpuWaste
    let memWaste : ℚ := if memWaste < -100 then -100 else memWaste
    -- Calculate monthly savings
    let cpuSavings : ℚ :=
      if cpuWaste > 0 then (currentCPU - recommendedCPU) * cfg.CPUCostPerCore else 0
    let memSavings : ℚ :=
      if memWaste > 0 then
        ((wrapInt64 (currentMem - recommendedMem) : Int) : ℚ) / (1024 * 1024 * 1024)
          * cfg.MemoryCostPerGB
      else 0
    let monthlySavings : ℚ := cpuSavings + memSavings
    let monthlySavings : ℚ := if monthlySavings < 0 then 0 else monthlySavings
    -- Determine status
    let status : String :=
      if cpuWaste > 30 ∨ memWaste > 30 then "over-provisioned"
      else if cpuWaste < -20 ∨ memWaste < -20 then "under-provisioned"
      else "optimal"
    -- Determine confidence based on data points
    let confidence : String :=
      if cpuValues.length ≥ 100 then "high"
      else if cpuValues.length ≥ 20 then "medium"
      else "low"
    Except.ok
      { sampleCount := cpuValues.length
        avgCPU := cpu.avg, maxCPU := cpu.max, p95CPU := cpu.p95, p99CPU := cpu.p99
        avgMem := mem.avg, maxMem := mem.max, p95Mem := mem.p95, p99Mem := mem.p99
        currentCPU := currentCPU, currentMem := currentMem
        recommendedCPU := recommendedCPU, recommendedMem := recommendedMem
        cpuWaste := cpuWaste, memWaste := memWaste
        monthlySavings := monthlySavings, status := status, confidence := confidence }


/-! ## Cluster objects

The Kubernetes API types, as far as the collector reads them. -/

/-- The two readings the collector takes from a `corev1.ResourceList`:
`Cpu().MilliValue()` and `Memory().Value()` (both 0 for a quantity that the list
does not hold). -/
structure ResourceList where
  cpuMilliValue : Int
  memoryValue : Int

/-- A `corev1.Container`; `Requests` and `Limits` are `none` for a nil map. -/
structure Container where
  Name : String
  Image : String
  Requests : Option ResourceList
  Limits : Option ResourceList

/-- A `corev1.Pod`: `Phase` is `pod.Status.Phase`, `Containers` is
`pod.Spec.Containers`. -/
structure Pod where
  Namespace : String
  Name : String
  Phase : String
  Containers : List Container

/-- The constant `corev1.PodRunning`. -/
def PodRunning : String := "Running"

/-- One entry of `PodMetrics.Containers`. -/
structure ContainerMetrics where
  Name : String
  Usage : ResourceList

/-- A `metricsv1beta1.PodMetrics`. -/
structure PodMetrics where
  Containers : List ContainerMetrics

/-! ## The history store

The tables of `InitSchema`, as lists of rows. Instants are integers, in
nanoseconds. The `id` columns that the collector never reads
(`metrics_snapshots`, `resource_requests`, `recommendations`) and the columns
filled by a database default are left out. -/

structure PodRow where
  id : Int
  namespace_ : String
  pod_name : String
  created_at : Int
  updated_at : Int

structure ContainerRow where
  id : Int
  pod_id : Int
  container_name : String
  image : String
  created_at : Int
  updated_at : Int

structure MetricsSnapshotRow where
  container_id : Int
  timestamp : Int
  cpu_usage : ℚ
  memory_usage : Int

structure ResourceRequestRow where
  container_id : Int
  cpu_request : Option ℚ
  cpu_limit : Option ℚ
  mem_request : Option Int
  mem_limit : Option Int
  updated_at : Int

/-- A row of `analyses`; `values` holds the seventeen computed columns. -/
structure AnalysisRow where
  id : Int
  container_id : Int
  analyzed_at : Int
  window_start : Int
  window_end : Int
  values : Analysis

/-- A row of `recommendations`; `reason` holds the three arguments of the format
string of the reason text (data points, CPU waste, memory waste). -/
structure RecommendationRow where
  analysis_id : Int
  namespace_ : String
  pod_name : String
  container_name : String
  current_cpu : ℚ
  current_memory : Int
  recommended_cpu : ℚ
  recommended_memory : Int
  monthly_savings : ℚ
  confidence : String
  status : String
  reason : Nat × ℚ × ℚ
  applied : Bool

/-- The database: six tables and the sequences behind the `SERIAL` keys that the
collector reads back. -/
structure Store where
  pods : List PodRow
  containers : List ContainerRow
  resource_requests : List ResourceRequestRow
  metrics_snapshots : List MetricsSnapshotRow
  analyses : List AnalysisRow
  recommendations : List RecommendationRow
  pods_id_seq : Int
  containers_id_seq : Int
  analyses_id_seq : Int

/-- `INSERT INTO pods ... ON CONFLICT (namespace, pod_name) DO UPDATE SET updated_at = $4
RETURNING id`. The sequence advances also when the row exists. -/
def Store.upsertPod (st : Store) (ns podName : String) (createdAt updatedAt : Int) :
    Store × Int :=
  let id := st.pods_id_seq + 1
  match st.pods.find? (fun r => r.namespace_ = ns ∧ r.pod_name = podName) with
  | some r =>
    ({ st with
        pods := st.pods.map (fun x =>
          if x.namespace_ = ns ∧ x.pod_name = podName then { x with updated_at := updatedAt }
          else x)
        pods_id_seq := id }, r.id)
  | none =>
    ({ st with
        pods := st.pods ++
          [{ id := id, namespace_ := ns, pod_name := podName,
             created_at := createdAt, updated_at := updatedAt }]
        pods_id_seq := id }, id)

/-- `INSERT INTO containers ... ON CONFLICT (pod_id, container_name) DO UPDATE SET
image = $3, updated_at = $5 RETURNING id`. -/
def Store.upsertContainer (st : Store) (podID : Int) (containerName image : String)
    (createdAt updatedAt : Int) : Store × Int :=
  let id := st.containers_id_seq + 1
  match st.containers.find? (fun r => r.pod_id = podID ∧ r.container_name = containerName) with
  | some r =>
    ({ st with
        containers := st.containers.map (fun x =>
          if x.pod_id = podID ∧ x.container_name = containerName then
            { x with image := image, updated_at := updatedAt }
          else x)
        containers_id_seq := id }, r.id)
  | none =>
    ({ st with
        containers := st.containers ++
          [{ id := id, pod_id := podID, container_name := containerName, image := image,
             created_at := createdAt, updated_at := updatedAt }]
        containers_id_seq := id }, id)

/-- `INSERT INTO resource_requests ... ON CONFLICT DO NOTHING`: the table has no unique
constraint besides its key, so the row is always added. -/
def Store.insertResourceRequest (st : Store) (row : ResourceRequestRow) : Store :=
  { st with resource_requests := st.resource_requests ++ [row] }

/-- `INSERT INTO metrics_snapshots ... ON CONFLICT (container_id, timestamp) DO NOTHING`,
under the constraint `UNIQUE(container_id, timestamp)`. -/
def Store.insertMetricsSnapshot (st : Store) (row : MetricsSnapshotRow) : Store :=
  if st.metrics_snapshots.any
      (fun m => m.container_id = row.container_id ∧ m.timestamp = row.timestamp) then st
  else { st with metrics_snapshots := st.metrics_snapshots ++ [row] }

/-- `INSERT INTO analyses ... RETURNING id`. -/
def Store.insertAnalysis (st : Store) (containerID analyzedAt windowStart windowEnd : Int)
    (a : Analysis) : Store × Int :=
  let id := st.analyses_id_seq + 1
  ({ st with
      analyses := st.analyses ++
        [{ id := id, container_id := containerID, analyzed_at := analyzedAt,
           window_start := windowStart, window_end := windowEnd, values := a }]
      analyses_id_seq := id }, id)

/-- `INSERT INTO recommendations ...`. -/
def Store.insertRecommendation (st : Store) (row : RecommendationRow) : Store :=
  { st with recommendations := st.recommendations ++ [row] }

/-- `SELECT cpu_usage, memory_usage FROM metrics_snapshots WHERE container_id = $1 AND
timestamp >= $2 ORDER BY timestamp`. -/
def Store.selectMetrics (st : Store) (containerID windowStart : Int) : List (ℚ × Int) :=
  ((st.metrics_snapshots.filter
      (fun m => m.container_id = containerID ∧ windowStart ≤ m.timestamp)).insertionSort
      (fun a b => a.timestamp ≤ b.timestamp)).map (fun m => (m.cpu_usage, m.memory_usage))

/-- `SELECT COALESCE(cpu_request, 0), COALESCE(mem_request, 0) FROM resource_requests
WHERE container_id = $1 ORDER BY updated_at DESC LIMIT 1`; `none` when there is no row. -/
def Store.selectLatestRequest (st : Store) (containerID : Int) : Option (ℚ × Int) :=
  (((st.resource_requests.filter (fun r => r.container_id = containerID)).insertionSort
      (fun a b => b.updated_at ≤ a.updated_at)).head?).map
    (fun r => (r.cpu_request.getD 0, r.mem_request.getD 0))

/-- The local type `containerInfo` of `runAnalysis`. -/
structure containerInfo where
  id : Int
  podID : Int
  containerName : String
  namespace_ : String
  podName : String
deriving DecidableEq

/-- `SELECT DISTINCT c.id, c.pod_id, c.container_name, p.namespace, p.pod_name
FROM containers c JOIN pods p ON p.id = c.pod_id
WHERE EXISTS (SELECT 1 FROM metrics_snapshots m WHERE m.container_id = c.id)`. -/
def Store.selectContainersWithMetrics (st : Store) : List containerInfo :=
  ((st.containers.filter
      (fun c => st.metrics_snapshots.any (fun m => m.container_id = c.id))).flatMap
    (fun c => (st.pods.filter (fun p => p.id = c.pod_id)).map
      (fun p => { id := c.id, podID := c.pod_id, containerName := c.container_name,
                  namespace_ := p.namespace_, podName := p.pod_name }))).dedup

/-! ## The collector

Every call that leaves the process (a database statement, a request to the
cluster API) is counted; the outside world answers the call with number `n`
through the fields of `World`, so a `World` fixes one outcome for every call of
a run and a statement about every `World` is a statement about every outcome.
A Go `error` is an `Option String`, `none` for `nil`. Log output is not
modelled. -/

/-- The outside world of a run. -/
structure World where
  /-- The result of a float-to-integer conversion that is out of range. -/
  ovf : Int
  /-- The instant `time.Now()` returns while call `n` is prepared. -/
  now : Nat → Int
  /-- The error, if any, with which the database statement issued as call `n` fails. -/
  dbError : Nat → Option String
  /-- Whether `rows.Scan` fails on row `i` of the query issued as call `n`. -/
  scanError : Nat → Nat → Bool
  /-- The answer to `Pods(namespace).List` issued as call `n`. -/
  listPods : Nat → String → Except String (List Pod)
  /-- The answer to `PodMetricses(namespace).Get(podName)` issued as call `n`. -/
  getPodMetrics : Nat → String → String → Except String PodMetrics

/-- The state of a run: the database and the number of calls issued so far. -/
structure State where
  store : Store
  calls : Nat

/-- The state after one more call that left the database as it was. -/
def State.next (s : State) : State := { s with calls := s.calls + 1 }

/-- The rows of the query issued as call `n` that `rows.Scan` reads without error; a row
that fails is skipped (`continue`). -/
def World.scanRows {α : Type} (w : World) (n : Nat) (rows : List α) : List α :=
  (rows.enum.filter (fun ir => !w.scanError n ir.1)).map Prod.snd

/-- `time.Minute`, `time.Hour` in nanoseconds. -/
def Minute : Int := 60 * 1000000000

def Hour : Int := 60 * Minute

/-- `t.Truncate(time.Minute)`: rounding down to a multiple of a minute. -/
def truncateMinute (t : Int) : Int := t - t % Minute

/-- The fields of `Collector` that are not connections to the outside world. -/
structure Collector where
  config : AnalysisConfig
  namespace_ : String

/-- The allow-list of `isImportantSystemPod`. -/
def importantPrefixes : List String := ["coredns", "metrics-server", "aws-node", "kube-proxy"]

/-- Model of `isImportantSystemPod`: some entry `p` of the list has
`len(name) >= len(p) && name[:len(p)] == p`. Strings are compared as sequences of
characters. -/
def isImportantSystemPod (name : String) : Bool :=
  importantPrefixes.any fun p =>
    decide (name.toList.length ≥ p.toList.length) &&
      decide (name.toList.take p.toList.length = p.toList)

/-- Model of `Collector.storeMetrics`. -/
def Collector.storeMetrics (_c : Collector) (w : World) (s : State) (containerID : Int)
    (ns podName containerName : String) : Option String × State :=
  -- Get pod metrics
  match w.getPodMetrics s.calls ns podName with
  | Except.error e => (some e, s.next)
  | Except.ok podMetrics =>
    let s := s.next
    -- Find container metrics
    match podMetrics.Containers.find? (fun cm => cm.Name = containerName) with
    | some cm =>
      let cpuUsage : ℚ := (cm.Usage.cpuMilliValue : ℚ) / 1000
      let memUsage : Int := cm.Usage.memoryValue
      match w.dbError s.calls with
      | some e => (some e, s.next)
      | none =>
        (none,
          { store := s.store.insertMetricsSnapshot
              { container_id := containerID, timestamp := truncateMinute (w.now s.calls),
                cpu_usage := cpuUsage, memory_usage := memUsage }
            calls := s.calls + 1 })
    | none => (some "container not found in metrics", s)

/-- Model of `Collector.storeContainer`. -/
def Collector.storeContainer (c : Collector) (w : World) (s : State) (podID : Int)
    (ns podName : String) (container : Container) : Option String × State :=
  -- Insert or update container
  match w.dbError s.calls with
  | some e => (some ("failed to insert container: " ++ e), s.next)
  | none =>
    let r := s.store.upsertContainer podID container.Name container.Image
      (w.now s.calls) (w.now s.calls)
    let containerID := r.2
    let s : State := { store := r.1, calls := s.calls + 1 }
    -- Store resource requests
    let cpuRequest : ℚ := match container.Requests with
      | some l => (l.cpuMilliValue : ℚ) / 1000
      | none => 0
    let memRequest : Int := match container.Requests with
      | some l => l.memoryValue
      | none => 0
    let cpuLimit : ℚ := match container.Limits with
      | some l => (l.cpuMilliValue : ℚ) / 1000
      | none => 0
    let memLimit : Int := match container.Limits with
      | some l => l.memoryValue
      | none => 0
    -- Insert or update resource requests; a failure is only logged
    let s : State := match w.dbError s.calls with
      | some _ => s.next
      | none =>
        { store := s.store.insertResourceRequest
            { container_id := containerID, cpu_request := some cpuRequest,
              cpu_limit := some cpuLimit, mem_request := some memRequest,
              mem_limit := some memLimit, updated_at := w.now s.calls }
          calls := s.calls + 1 }
    -- Try to get metrics for this container; a failure is only logged
    let s : State := (c.storeMetrics w s containerID ns podName container.Name).2
    (none, s)

/-- The loop `for _, container := range pod.Spec.Containers` of `storePod`: the error of
`storeContainer` is logged and the loop goes on. -/
def Collector.storePod.loop (c : Collector) (w : World) (podID : Int) (ns podName : String) :
    List Container → State → State
  | [], s => s
  | container :: rest, s =>
    Collector.storePod.loop c w podID ns podName rest
      (c.storeContainer w s podID ns podName container).2

/-- Model of `Collector.storePod`. -/
def Collector.storePod (c : Collector) (w : World) (s : State) (pod : Pod) :
    Option String × State :=
  -- Insert or update pod
  match w.dbError s.calls with
  | some e => (some ("failed to insert pod: " ++ e), s.next)
  | none =>
    let r := s.store.upsertPod pod.Namespace pod.Name (w.now s.calls) (w.now s.calls)
    let podID := r.2
    let s : State := { store := r.1, calls := s.calls + 1 }
    -- Process each container
    (none, Collector.storePod.loop c w podID pod.Namespace pod.Name pod.Containers s)

/-- Model of `Collector.analyzeContainer`: the two queries, the computation
`analyzeContainer` on their results, and the two inserts. -/
def Collector.analyzeContainer (c : Collector) (w : World) (s : State) (containerID : Int)
    (ns podName containerName : String) : Option String × State :=
  -- Get metrics for last 7 days
  let windowStart : Int := w.now s.calls - 7 * 24 * Hour
  let windowEnd : Int := w.now s.calls
  match w.dbError s.calls with
  | some e => (some e, s.next)
  | none =>
    let rows := w.scanRows s.calls (s.store.selectMetrics containerID windowStart)
    let s := s.next
    if rows.length = 0 then
      (some "no metrics data", s)
    else
      -- Get current resource requests; on an error the defaults are used
      let request : Option (ℚ × Int) := match w.dbError s.calls with
        | some _ => none
        | none => s.store.selectLatestRequest containerID
      let s := s.next
      match KubeOptimizer.analyzeContainer w.ovf c.config rows request with
      | Except.error e => (some e, s)
      | Except.ok a =>
        -- Insert analysis
        match w.dbError s.calls with
        | some e => (some e, s.next)
        | none =>
          let r := s.store.insertAnalysis containerID (w.now s.calls) windowStart windowEnd a
          let analysisID := r.2
          let s : State := { store := r.1, calls := s.calls + 1 }
          -- Generate recommendation
          match w.dbError s.calls with
          | some e => (some e, s.next)
          | none =>
            (none,
              { store := s.store.insertRecommendation
                  { analysis_id := analysisID, namespace_ := ns, pod_name := podName,
                    container_name := containerName,
                    current_cpu := a.currentCPU, current_memory := a.currentMem,
                    recommended_cpu := a.recommendedCPU,
                    recommended_memory := a.recommendedMem,
                    monthly_savings := a.monthlySavings, confidence := a.confidence,
                    status := a.status, reason := (a.sampleCount, a.cpuWaste, a.memWaste),
                    applied := false }
                calls := s.calls + 1 })

/-- The loop `for _, ci := range containers` of `runAnalysis`: the error of
`analyzeContainer` is logged and the loop goes on. -/
def Collector.runAnalysis.loop (c : Collector) (w : World) : List containerInfo → State → State
  | [], s => s
  | ci :: rest, s =>
    Collector.runAnalysis.loop c w rest
      (c.analyzeContainer w s ci.id ci.namespace_ ci.podName ci.containerName).2

/-- Model of `Collector.runAnalysis`. -/
def Collector.runAnalysis (c : Collector) (w : World) (s : State) : Option String × State :=
  -- Get containers with enough metrics data
  match w.dbError s.calls with
  | some e => (some e, s.next)
  | none =>
    let containers := w.scanRows s.calls s.store.selectContainersWithMetrics
    let s := s.next
    (none, Collector.runAnalysis.loop c w containers s)

/-- The loop `for _, pod := range pods.Items` of `Collect`. -/
def Collector.Collect.loop (c : Collector) (w : World) : List Pod → State → State
  | [], s => s
  | pod :: rest, s =>
    -- Skip pods that are not running
    if pod.Phase ≠ PodRunning then
      Collector.Collect.loop c w rest s
    -- Skip system pods (optional)
    else if pod.Namespace = "kube-system" ∧ ¬ isImportantSystemPod pod.Name then
      Collector.Collect.loop c w rest s
    else
      Collector.Collect.loop c w rest (c.storePod w s pod).2

/-- Model of `Collector.Collect`. -/
def Collector.Collect (c : Collector) (w : World) (s : State) : Option String × State :=
  -- Get all pods
  match w.listPods s.calls c.namespace_ with
  | Except.error e => (some ("failed to list pods: " ++ e), s.next)
  | Except.ok pods =>
    let s := s.next
    -- Get pod metrics: the answer is only logged
    let s := s.next
    -- Store each pod and its containers
    let s := Collector.Collect.loop c w pods s
    -- Run analysis; its error is only logged
    let s := (c.runAnalysis w s).2
    (none, s)

/-! ## Fixtures for concrete runs -/

/-- A database without rows. -/
def Store.empty : Store :=
  { pods := [], containers := [], resource_requests := [], metrics_snapshots := [],
    analyses := [], recommendations := [],
    pods_id_seq := 0, containers_id_seq := 0, analyses_id_seq := 0 }

/-- A world in which no database statement fails, the clock stands at instant 0, the
cluster lists no pod and has no usage reading. -/
def World.quiet : World :=
  { ovf := 0
    now := fun _ => 0
    dbError := fun _ => none
    scanError := fun _ _ => false
    listPods := fun _ _ => Except.ok []
    getPodMetrics := fun _ _ _ => Except.error "metrics unavailable" }

/-- A collector with the default costs of `config.Load`, for all namespaces. -/
def Collector.default : Collector :=
  { config := { CPUCostPerCore := 30, MemoryCostPerGB := 10 }, namespace_ := "" }

/-- The quiet world, except that the cluster lists `pods`. -/
def World.listing (pods : List Pod) : World :=
  { World.quiet with listPods := fun _ _ => Except.ok pods }

/-- The quiet world, except that the usage reading issued as call `n` holds one entry,
for the container `app`: `250 + n` millicores and 64000000 bytes. -/
def World.metered : World :=
  { World.quiet with
    getPodMetrics := fun n _ _ => Except.ok
      { Containers := [{ Name := "app",
                         Usage := { cpuMilliValue := 250 + n, memoryValue := 64000000 } }] } }

/-- The world of `World.metered`, except that the database statement issued as call 1
fails. -/
def World.requestInsertFails : World :=
  { World.metered with dbError := fun n => if n = 1 then some "deadlock" else none }

/-- A database that holds one snapshot, of container 1 at instant 0: 2 cores and
100000000 bytes. -/
def Store.oneSnapshot : Store :=
  { Store.empty with
    metrics_snapshots :=
      [{ container_id := 1, timestamp := 0, cpu_usage := 2, memory_usage := 100000000 }] }

/-! ## The reporting surface: patch rendering -/

/-- The Go struct `models.Recommendation`; `CreatedAt` is an instant. -/
structure Recommendation where
  ID : Int
  AnalysisID : Int
  Namespace : String
  PodName : String
  ContainerName : String
  CurrentCPU : ℚ
  CurrentMemory : Int
  RecommendedCPU : ℚ
  RecommendedMemory : Int
  MonthlySavings : ℚ
  Confidence : String
  Status : String
  Reason : String
  Applied : Bool
  CreatedAt : Int

/-- Rounding to the nearest integer, a tie going to the even neighbour: the rounding of
the verb `%.0f`. -/
def roundHalfEven (q : ℚ) : Int :=
  if q - ⌊q⌋ < 1 / 2 then ⌊q⌋
  else if 1 / 2 < q - ⌊q⌋ then ⌊q⌋ + 1
  else if ⌊q⌋ % 2 = 0 then ⌊q⌋ else ⌊q⌋ + 1

/-- Model of `fmt.Sprintf("%.0f", q)`: the sign of a negative value, then the rounded
magnitude in decimal. -/
def formatFloat0 (q : ℚ) : String :=
  (if q < 0 then "-" else "") ++ toString (roundHalfEven |q|).toNat

/-- Model of `fmt.Sprintf("%d", n)` for an `int64`. -/
def formatInt (n : Int) : String := toString n

/-- The map `generateResourcePatch` returns, as a record of its leaves: `apiVersion`,
`kind`, `metadata.name`, `metadata.namespace`, and for the one entry of `spec.containers`
its `name` and the four quantities under `resources`. -/
structure ResourcePatch where
  apiVersion : String
  kind : String
  name : String
  namespace_ : String
  containerName : String
  requestsCPU : String
  requestsMemory : String
  limitsCPU : String
  limitsMemory : String

/-- Model of `generateResourcePatch`. -/
def generateResourcePatch (rec : Recommendation) : ResourcePatch :=
  let cpuRequest := formatFloat0 (rec.RecommendedCPU * 1000) ++ "m"
  let memRequest := formatInt (rec.RecommendedMemory.tdiv (1024 * 1024)) ++ "Mi"
  -- Calculate limits (20% headroom)
  let cpuLimit := formatFloat0 (rec.RecommendedCPU * 1000 * 1.2) ++ "m"
  let memLimit :=
    formatInt ((wrapInt64 (rec.RecommendedMemory.tdiv (1024 * 1024) * 120)).tdiv 100) ++ "Mi"
  { apiVersion := "v1"
    kind := "Pod"
    name := rec.PodName
    namespace_ := rec.Namespace
    containerName := rec.ContainerName
    requestsCPU := cpuRequest
    requestsMemory := memRequest
    limitsCPU := cpuLimit
    limitsMemory := memLimit }

/-- A recommendation of 0.01451 core and 32 MiB for the container `app` of pod
`default/web`. -/
def Recommendation.example : Recommendation :=
  { ID := 1, AnalysisID := 1, Namespace := "default", PodName := "web", ContainerName := "app",
    CurrentCPU := 1, CurrentMemory := 268435456, RecommendedCPU := 1451 / 100000,
    RecommendedMemory := 33554432, MonthlySavings := 0, Confidence := "low",
    Status := "over-provisioned", Reason := "", Applied := false, CreatedAt := 0 }

/-! ## Lists sorted ascending -/

theorem getD_mem_of_lt {α : Type} (l : List α) (d : α) {i : Nat} (h : i < l.length) :
    l.getD i d ∈ l := by
  rw [List.getD_eq_getElem l d h]
  exact List.getElem_mem h

theorem getElem?_eq_some_getD {α : Type} (l : List α) (d : α) {i : Nat} (h : i < l.length) :
    l[i]? = some (l.getD i d) := by
  rw [List.getD_eq_getElem l d h, List.getElem?_eq_getElem h]

theorem sorted_getD_le {α : Type} [LinearOrder α] {l : List α} (hs : l.Sorted (· ≤ ·)) (d : α)
    {i j : Nat} (hij : i ≤ j) (hj : j < l.length) : l.getD i d ≤ l.getD j d := by
  have hi : i < l.length := lt_of_le_of_lt hij hj
  rw [List.getD_eq_getElem l d hi, List.getD_eq_getElem l d hj]
  exact hs.rel_get_of_le (a := ⟨i, hi⟩) (b := ⟨j, hj⟩) hij

theorem sorted_le_getD_last {α : Type} [LinearOrder α] {l : List α} (hs : l.Sorted (· ≤ ·))
    (d : α) {x : α} (hx : x ∈ l) : x ≤ l.getD (l.length - 1) d := by
  obtain ⟨i, hi, rfl⟩ := List.getElem_of_mem hx
  have := sorted_getD_le hs d (i := i) (j := l.length - 1) (by omega) (by omega)
  rwa [List.getD_eq_getElem l d hi] at this

/-- The ascending arrangement of a list is unique: any sorted permutation of `l` is the
list the sort model returns. -/
theorem eq_insertionSort_of_sorted_perm {α : Type} [LinearOrder α] {s l : List α}
    (hs : s.Sorted (· ≤ ·)) (hp : s.Perm l) : s = l.insertionSort (· ≤ ·) :=
  List.eq_of_perm_of_sorted (hp.trans (List.perm_insertionSort (· ≤ ·) l).symm) hs
    (List.sorted_insertionSort (· ≤ ·) l)

/-- Order facts about the entries the statistics functions read from the sorted copy. -/
theorem sorted_entries_bounds {α : Type} [LinearOrder α] (l : List α) (d : α) (hl : l ≠ [])
    {i j : Nat} (hij : i ≤ j) (hj : j < l.length) :
    l.minimum ≤ ((l.insertionSort (· ≤ ·)).getD i d : WithTop α) ∧
    ((l.insertionSort (· ≤ ·)).getD i d : WithBot α) ≤ l.maximum ∧
    l.minimum ≤ ((l.insertionSort (· ≤ ·)).getD j d : WithTop α) ∧
    ((l.insertionSort (· ≤ ·)).getD j d : WithBot α) ≤ l.maximum ∧
    l.maximum = ((l.insertionSort (· ≤ ·)).getD (l.length - 1) d : WithBot α) ∧
    (l.insertionSort (· ≤ ·)).getD i d ≤ (l.insertionSort (· ≤ ·)).getD j d := by
  have hlen : (l.insertionSort (· ≤ ·)).length = l.length := List.length_insertionSort _ l
  have hs : (l.insertionSort (· ≤ ·)).Sorted (· ≤ ·) := List.sorted_insertionSort _ l
  have hmem : ∀ k, k < l.length → (l.insertionSort (· ≤ ·)).getD k d ∈ l := fun k hk =>
    (List.mem_insertionSort (· ≤ ·)).mp (getD_mem_of_lt _ d (by omega))
  have hpos : 0 < l.length := List.length_pos.mpr hl
  refine ⟨List.minimum_le_of_mem' (hmem i (by omega)), List.le_maximum_of_mem' (hmem i (by omega)),
    List.minimum_le_of_mem' (hmem j hj), List.le_maximum_of_mem' (hmem j hj), ?_,
    sorted_getD_le hs d hij (by omega)⟩
  rw [List.maximum_eq_coe_iff]
  refine ⟨hmem _ (by omega), fun a ha => ?_⟩
  have := sorted_le_getD_last hs d ((List.mem_insertionSort (· ≤ ·)).mpr ha)
  rwa [hlen] at this

/-! ## The percentile index -/

theorem floor_mul_95 (n : Nat) : ⌊(n : ℚ) * 0.95⌋₊ = n * 95 / 100 := by
  have h : (n : ℚ) * 0.95 = ((n * 95 : Nat) : ℚ) / ((100 : Nat) : ℚ) := by
    push_cast; ring
  rw [h, Nat.floor_div_eq_div]

theorem floor_mul_99 (n : Nat) : ⌊(n : ℚ) * 0.99⌋₊ = n * 99 / 100 := by
  have h : (n : ℚ) * 0.99 = ((n * 99 : Nat) : ℚ) / ((100 : Nat) : ℚ) := by
    push_cast; ring
  rw [h, Nat.floor_div_eq_div]

/-- The index is in bounds on a non-empty slice. -/
theorem percentileIndex_lt {n : Nat} (q : ℚ) (hn : 0 < n) : percentileIndex n q < n := by
  unfold percentileIndex
  simp only
  split <;> omega

theorem percentileIndex_eq_min (n : Nat) (q : ℚ) :
    percentileIndex n q = min ⌊(n : ℚ) * q⌋₊ (n - 1) := by
  unfold percentileIndex
  simp only
  split <;> omega

theorem percentileIndex_95 (n : Nat) : percentileIndex n 0.95 = min (n * 95 / 100) (n - 1) := by
  rw [percentileIndex_eq_min, floor_mul_95]

theorem percentileIndex_99 (n : Nat) : percentileIndex n 0.99 = min (n * 99 / 100) (n - 1) := by
  rw [percentileIndex_eq_min, floor_mul_99]

theorem percentileIndex_95_le_99 (n : Nat) : percentileIndex n 0.95 ≤ percentileIndex n 0.99 := by
  rw [percentileIndex_95, percentileIndex_99]
  omega

theorem percentileIndex_one (q : ℚ) : percentileIndex 1 q = 0 := by
  have := percentileIndex_lt (n := 1) q (by omega)
  omega

/-! ## Machine arithmetic -/

theorem wrapInt64_of_inInt64 {x : Int} (h : InInt64 x) : wrapInt64 x = x := by
  unfold InInt64 at h
  unfold wrapInt64
  omega

theorem wrapInt64_add_wrapInt64 (a b : Int) : wrapInt64 (wrapInt64 a + b) = wrapInt64 (a + b) := by
  unfold wrapInt64
  omega

/-- The wrapped running sum of the loop is the wrapped mathematical sum. -/
theorem foldl_wrapInt64 (l : List Int) (acc : Int) :
    l.foldl (fun s v => wrapInt64 (s + v)) (wrapInt64 acc) = wrapInt64 (acc + l.sum) := by
  induction l generalizing acc with
  | nil => simp
  | cons x xs ih =>
    rw [List.foldl_cons, wrapInt64_add_wrapInt64, ih, List.sum_cons, add_assoc]

theorem foldl_wrapInt64_zero (l : List Int) :
    l.foldl (fun s v => wrapInt64 (s + v)) 0 = wrapInt64 l.sum := by
  have h := foldl_wrapInt64 l 0
  have h0 : wrapInt64 0 = 0 := by decide
  rwa [h0, zero_add] at h

theorem foldl_add_eq_sum (l : List ℚ) (acc : ℚ) :
    l.foldl (fun s v => s + v) acc = acc + l.sum := by
  induction l generalizing acc with
  | nil => simp
  | cons x xs ih => rw [List.foldl_cons, ih, List.sum_cons, add_assoc]

/-- Truncating the exact quotient toward zero is Go's integer division. -/
theorem truncQ_intCast_div_natCast (a : Int) (n : Nat) :
    truncQ ((a : ℚ) / (n : ℚ)) = a.tdiv (n : Int) := by
  unfold truncQ
  rcases Nat.eq_zero_or_pos n with hn | hn
  · subst hn; simp
  have hnq : (0 : ℚ) < (n : ℚ) := by exact_mod_cast hn
  by_cases ha : 0 ≤ a
  · have hq : (0 : ℚ) ≤ (a : ℚ) / (n : ℚ) := div_nonneg (by exact_mod_cast ha) hnq.le
    rw [if_pos hq, Rat.floor_intCast_div_natCast, Int.tdiv_eq_ediv ha (by omega)]
  · have ha' : a < 0 := not_le.mp ha
    have hq : ¬ (0 : ℚ) ≤ (a : ℚ) / (n : ℚ) :=
      not_le.mpr (div_neg_of_neg_of_pos (by exact_mod_cast ha') hnq)
    rw [if_neg hq]
    have e : (a : ℚ) / (n : ℚ) = -(((-a : Int) : ℚ) / (n : ℚ)) := by push_cast; ring
    have t : a.tdiv (n : Int) = -((-a) / (n : Int)) := by
      rw [← Int.tdiv_eq_ediv (by omega) (by omega), Int.neg_tdiv, neg_neg]
    rw [e, Int.ceil_neg, Rat.floor_intCast_div_natCast, t]

theorem f64ToInt64_inInt64 {ovf : Int} (h : InInt64 ovf) (q : ℚ) : InInt64 (f64ToInt64 ovf q) := by
  unfold f64ToInt64
  split
  · assumption
  · exact h

theorem f64ToInt64_of_inInt64 (ovf : Int) {q : ℚ} (h : InInt64 (truncQ q)) :
    f64ToInt64 ovf q = truncQ q := by
  unfold f64ToInt64
  rw [if_pos h]

/-- The subtraction `currentMem-recommendedMem` does not wrap when it is evaluated: the
request is positive there and the recommendation is not negative. -/
theorem wrapInt64_sub_of_pos {cur recm : Int} (hc : InInt64 cur) (hpos : 0 < cur)
    (hr : InInt64 recm) (hfloor : 0 ≤ recm) : wrapInt64 (cur - recm) = cur - recm := by
  unfold InInt64 at hc hr
  unfold wrapInt64
  omega

theorem recommendedMem_inInt64 {ovf : Int} (h : InInt64 ovf) (q : ℚ) :
    InInt64 (if f64ToInt64 ovf q < 33554432 then 33554432 else f64ToInt64 ovf q) ∧
    (0 : Int) ≤ (if f64ToInt64 ovf q < 33554432 then 33554432 else f64ToInt64 ovf q) := by
  have := f64ToInt64_inInt64 h q
  unfold InInt64 at this ⊢
  split <;> omega

theorem clamp_eq_max (w : ℚ) : (if w < -100 then -100 else w) = max (-100) w := by
  rw [max_def]
  split_ifs with p q q
  · exact absurd p (not_lt.mpr q)
  · rfl
  · rfl
  · exact absurd (not_lt.mp p) q

theorem floor_eq_max (w : ℚ) : (if w < 0 then 0 else w) = max 0 w := by
  rw [max_def]
  split_ifs with p q q
  · exact absurd p (not_lt.mpr q)
  · rfl
  · rfl
  · exact absurd (not_lt.mp p) q

/-! ## Unfolding the statistics functions -/

theorem sortFloat64s_length (l : List ℚ) : (sortFloat64s l).length = l.length :=
  List.length_insertionSort _ l

theorem sortSlice_length (l : List Int) : (sortSlice l).length = l.length :=
  List.length_insertionSort _ l

theorem calculateStats_of_ne_nil {values : List ℚ} (h : values ≠ []) :
    calculateStats values =
      { avg := values.foldl (fun s v => s + v) 0 / (values.length : ℚ)
        max := (sortFloat64s values).getD (values.length - 1) 0
        p95 := (sortFloat64s values).getD (percentileIndex values.length 0.95) 0
        p99 := (sortFloat64s values).getD (percentileIndex values.length 0.99) 0 } := by
  have hl : values.length ≠ 0 := fun h0 => h (List.length_eq_zero.mp h0)
  simp only [calculateStats, hl, if_false, sortFloat64s_length]

theorem calculateStatsInt_of_ne_nil {values : List Int} (h : values ≠ []) :
    calculateStatsInt values =
      { avg := (values.foldl (fun s v => wrapInt64 (s + v)) 0).tdiv (values.length : Int)
        max := (sortSlice values).getD (values.length - 1) 0
        p95 := (sortSlice values).getD (percentileIndex values.length 0.95) 0
        p99 := (sortSlice values).getD (percentileIndex values.length 0.99) 0 } := by
  have hl : values.length ≠ 0 := fun h0 => h (List.length_eq_zero.mp h0)
  simp only [calculateStatsInt, hl, if_false, sortSlice_length]

/-- Sorting commutes with reading the integers as rationals. -/
theorem sortFloat64s_map_cast (l : List Int) :
    sortFloat64s (l.map (fun v : Int => (v : ℚ))) = (sortSlice l).map (fun v : Int => (v : ℚ)) := by
  unfold sortFloat64s sortSlice
  exact (List.map_insertionSort (· ≤ ·) (· ≤ ·) (fun v : Int => (v : ℚ)) l
    (fun a _ b _ => Int.cast_le.symm)).symm

theorem getD_map_cast (l : List Int) (i : Nat) :
    (l.map (fun v : Int => (v : ℚ))).getD i 0 = ((l.getD i 0 : Int) : ℚ) := by
  have h := List.getD_map (l := l) (d := (0 : Int)) (n := i) (fun v : Int => (v : ℚ))
  simpa using h

/-! ## Statistics engine: claims -/

/-- Claim C1. For every non-empty sample list of length `n`, `calculateStats` and
`calculateStatsInt` return as p95 the entry at index `min (floor (n * 0.95)) (n - 1)` of
the list sorted ascending (any sorted permutation `sorted` of the samples), and as p99 the
entry at index `min (floor (n * 0.99)) (n - 1)` of the same sorted list. -/
theorem calculateStats_percentiles_nearest_rank
    (values sorted : List ℚ) (ivalues isorted : List Int)
    (hv : values ≠ []) (hs : sorted.Sorted (· ≤ ·)) (hp : sorted.Perm values)
    (hiv : ivalues ≠ []) (his : isorted.Sorted (· ≤ ·)) (hip : isorted.Perm ivalues) :
    sorted[min ⌊(values.length : ℚ) * 0.95⌋₊ (values.length - 1)]?
        = some (calculateStats values).p95 ∧
    sorted[min ⌊(values.length : ℚ) * 0.99⌋₊ (values.length - 1)]?
        = some (calculateStats values).p99 ∧
    isorted[min ⌊(ivalues.length : ℚ) * 0.95⌋₊ (ivalues.length - 1)]?
        = some (calculateStatsInt ivalues).p95 ∧
    isorted[min ⌊(ivalues.length : ℚ) * 0.99⌋₊ (ivalues.length - 1)]?
        = some (calculateStatsInt ivalues).p99 := by
  have e1 : sorted = sortFloat64s values := eq_insertionSort_of_sorted_perm hs hp
  have e2 : isorted = sortSlice ivalues := eq_insertionSort_of_sorted_perm his hip
  have n1 : 0 < values.length := List.length_pos.mpr hv
  have n2 : 0 < ivalues.length := List.length_pos.mpr hiv
  subst e1 e2
  rw [calculateStats_of_ne_nil hv, calculateStatsInt_of_ne_nil hiv]
  simp only [← percentileIndex_eq_min]
  refine ⟨?_, ?_, ?_, ?_⟩
  · exact getElem?_eq_some_getD _ 0 (by rw [sortFloat64s_length]; exact percentileIndex_lt _ n1)
  · exact getElem?_eq_some_getD _ 0 (by rw [sortFloat64s_length]; exact percentileIndex_lt _ n1)
  · exact getElem?_eq_some_getD _ 0 (by rw [sortSlice_length]; exact percentileIndex_lt _ n2)
  · exact getElem?_eq_some_getD _ 0 (by rw [sortSlice_length]; exact percentileIndex_lt _ n2)

/-- Witness of claim C1 at the samples `[3, 1, 2]` and `[30, 10, 20]`. -/
theorem calculateStats_percentiles_nearest_rank_witness :
    ([3, 1, 2] : List ℚ) ≠ [] ∧ ([1, 2, 3] : List ℚ).Sorted (· ≤ ·) ∧
    ([1, 2, 3] : List ℚ).Perm [3, 1, 2] ∧
    ([30, 10, 20] : List Int) ≠ [] ∧ ([10, 20, 30] : List Int).Sorted (· ≤ ·) ∧
    ([10, 20, 30] : List Int).Perm [30, 10, 20] ∧
    (([1, 2, 3] : List ℚ)[min ⌊(([3, 1, 2] : List ℚ).length : ℚ) * 0.95⌋₊
          (([3, 1, 2] : List ℚ).length - 1)]?
        = some (calculateStats [3, 1, 2]).p95 ∧
      ([1, 2, 3] : List ℚ)[min ⌊(([3, 1, 2] : List ℚ).length : ℚ) * 0.99⌋₊
          (([3, 1, 2] : List ℚ).length - 1)]?
        = some (calculateStats [3, 1, 2]).p99 ∧
      ([10, 20, 30] : List Int)[min ⌊(([30, 10, 20] : List Int).length : ℚ) * 0.95⌋₊
          (([30, 10, 20] : List Int).length - 1)]?
        = some (calculateStatsInt [30, 10, 20]).p95 ∧
      ([10, 20, 30] : List Int)[min ⌊(([30, 10, 20] : List Int).length : ℚ) * 0.99⌋₊
          (([30, 10, 20] : List Int).length - 1)]?
        = some (calculateStatsInt [30, 10, 20]).p99) :=
  ⟨by simp, by norm_num, by decide, by simp, by simp, by decide,
    calculateStats_percentiles_nearest_rank [3, 1, 2] [1, 2, 3] [30, 10, 20] [10, 20, 30]
      (by simp) (by norm_num) (by decide) (by simp) (by simp) (by decide)⟩

/-- Claim C2. On the empty sample list `calculateStats` and `calculateStatsInt` both
return avg = max = p95 = p99 = 0; the functions are total, so they do not fail. -/
theorem calculateStats_nil :
    calculateStats [] = { avg := 0, max := 0, p95 := 0, p99 := 0 } ∧
    calculateStatsInt [] = { avg := 0, max := 0, p95 := 0, p99 := 0 } := by
  constructor <;> rfl

/-- Claim C3. For every value `x`, `calculateStats [x]` returns avg = max = p95 = p99 = x,
and for every `int64` value `y`, `calculateStatsInt [y]` returns avg = max = p95 = p99 = y. -/
theorem calculateStats_singleton (x : ℚ) (y : Int) (hy : InInt64 y) :
    calculateStats [x] = { avg := x, max := x, p95 := x, p99 := x } ∧
    calculateStatsInt [y] = { avg := y, max := y, p95 := y, p99 := y } := by
  constructor
  · rw [calculateStats_of_ne_nil (by simp)]
    simp [sortFloat64s, percentileIndex_one]
  · rw [calculateStatsInt_of_ne_nil (by simp)]
    simp [sortSlice, percentileIndex_one, wrapInt64_of_inInt64 hy]

/-- Witness of claim C3 at `x = 1/4` and `y = -7`. -/
theorem calculateStats_singleton_witness :
    InInt64 (-7) ∧
    calculateStats [1 / 4] = { avg := 1 / 4, max := 1 / 4, p95 := 1 / 4, p99 := 1 / 4 } ∧
    calculateStatsInt [-7] = { avg := -7, max := -7, p95 := -7, p99 := -7 } :=
  ⟨by decide, calculateStats_singleton (1 / 4) (-7) (by decide)⟩

/-- Claim C4. For every non-empty sample list, the p95 and the p99 returned by
`calculateStats` (and by `calculateStatsInt`) are at least the minimum and at most the
maximum of the list, the returned max is the maximum of the list, and p95 ≤ p99. -/
theorem calculateStats_percentiles_within_range (values : List ℚ) (ivalues : List Int)
    (hv : values ≠ []) (hiv : ivalues ≠ []) :
    (values.minimum ≤ ((calculateStats values).p95 : WithTop ℚ) ∧
      ((calculateStats values).p95 : WithBot ℚ) ≤ values.maximum ∧
      values.minimum ≤ ((calculateStats values).p99 : WithTop ℚ) ∧
      ((calculateStats values).p99 : WithBot ℚ) ≤ values.maximum ∧
      values.maximum = ((calculateStats values).max : WithBot ℚ) ∧
      (calculateStats values).p95 ≤ (calculateStats values).p99) ∧
    (ivalues.minimum ≤ ((calculateStatsInt ivalues).p95 : WithTop Int) ∧
      ((calculateStatsInt ivalues).p95 : WithBot Int) ≤ ivalues.maximum ∧
      ivalues.minimum ≤ ((calculateStatsInt ivalues).p99 : WithTop Int) ∧
      ((calculateStatsInt ivalues).p99 : WithBot Int) ≤ ivalues.maximum ∧
      ivalues.maximum = ((calculateStatsInt ivalues).max : WithBot Int) ∧
      (calculateStatsInt ivalues).p95 ≤ (calculateStatsInt ivalues).p99) := by
  rw [calculateStats_of_ne_nil hv, calculateStatsInt_of_ne_nil hiv]
  exact ⟨sorted_entries_bounds values 0 hv (percentileIndex_95_le_99 _)
      (percentileIndex_lt _ (List.length_pos.mpr hv)),
    sorted_entries_bounds ivalues 0 hiv (percentileIndex_95_le_99 _)
      (percentileIndex_lt _ (List.length_pos.mpr hiv))⟩

/-- Witness of claim C4 at the samples `[3, 1, 2]` and `[30, 10, 20]`. -/
theorem calculateStats_percentiles_within_range_witness :
    ([3, 1, 2] : List ℚ) ≠ [] ∧ ([30, 10, 20] : List Int) ≠ [] ∧
    ((([3, 1, 2] : List ℚ).minimum ≤ ((calculateStats [3, 1, 2]).p95 : WithTop ℚ) ∧
      ((calculateStats [3, 1, 2]).p95 : WithBot ℚ) ≤ ([3, 1, 2] : List ℚ).maximum ∧
      ([3, 1, 2] : List ℚ).minimum ≤ ((calculateStats [3, 1, 2]).p99 : WithTop ℚ) ∧
      ((calculateStats [3, 1, 2]).p99 : WithBot ℚ) ≤ ([3, 1, 2] : List ℚ).maximum ∧
      ([3, 1, 2] : List ℚ).maximum = ((calculateStats [3, 1, 2]).max : WithBot ℚ) ∧
      (calculateStats [3, 1, 2]).p95 ≤ (calculateStats [3, 1, 2]).p99) ∧
    (([30, 10, 20] : List Int).minimum ≤ ((calculateStatsInt [30, 10, 20]).p95 : WithTop Int) ∧
      ((calculateStatsInt [30, 10, 20]).p95 : WithBot Int) ≤ ([30, 10, 20] : List Int).maximum ∧
      ([30, 10, 20] : List Int).minimum ≤ ((calculateStatsInt [30, 10, 20]).p99 : WithTop Int) ∧
      ((calculateStatsInt [30, 10, 20]).p99 : WithBot Int) ≤ ([30, 10, 20] : List Int).maximum ∧
      ([30, 10, 20] : List Int).maximum = ((calculateStatsInt [30, 10, 20]).max : WithBot Int) ∧
      (calculateStatsInt [30, 10, 20]).p95 ≤ (calculateStatsInt [30, 10, 20]).p99)) :=
  ⟨by simp, by simp,
    calculateStats_percentiles_within_range [3, 1, 2] [30, 10, 20] (by simp) (by simp)⟩

/-- Counterexample to claim C5 as stated. On the samples `[1, 2]` the integer average is
`3 / 2 = 1` (integer division) while the floating-point average of `[1.0, 2.0]` is `1.5`. -/
theorem calculateStatsInt_avg_ne_calculateStats_avg :
    (calculateStatsInt [1, 2]).avg = 1 ∧
    (calculateStats ([1, 2].map (fun v : Int => (v : ℚ)))).avg = 3 / 2 ∧
    ((calculateStatsInt [1, 2]).avg : ℚ)
      ≠ (calculateStats ([1, 2].map (fun v : Int => (v : ℚ)))).avg := by
  rw [calculateStatsInt_of_ne_nil (by simp), calculateStats_of_ne_nil (by simp)]
  have t : Int.tdiv 3 2 = 1 := by decide
  norm_num [wrapInt64, t]

/-- Claim C5, amended. For every list of integer samples, the max, p95 and p99 of
`calculateStatsInt` equal those of `calculateStats` applied to the same values read as
real numbers; the avg of `calculateStatsInt` is the avg of `calculateStats` truncated
toward zero, provided the sum of the samples is an `int64` value. -/
theorem calculateStatsInt_refines_calculateStats (values : List Int) :
    ((calculateStatsInt values).max : ℚ)
        = (calculateStats (values.map (fun v : Int => (v : ℚ)))).max ∧
    ((calculateStatsInt values).p95 : ℚ)
        = (calculateStats (values.map (fun v : Int => (v : ℚ)))).p95 ∧
    ((calculateStatsInt values).p99 : ℚ)
        = (calculateStats (values.map (fun v : Int => (v : ℚ)))).p99 ∧
    (InInt64 values.sum → (calculateStatsInt values).avg
        = truncQ (calculateStats (values.map (fun v : Int => (v : ℚ)))).avg) := by
  rcases eq_or_ne values [] with h | h
  · subst h
    refine ⟨by simp [calculateStats, calculateStatsInt], by simp [calculateStats, calculateStatsInt],
      by simp [calculateStats, calculateStatsInt], fun _ => ?_⟩
    simp [calculateStats, calculateStatsInt, truncQ]
  · have hm : values.map (fun v : Int => (v : ℚ)) ≠ [] := by simpa using h
    rw [calculateStatsInt_of_ne_nil h, calculateStats_of_ne_nil hm]
    simp only [List.length_map, sortFloat64s_map_cast, getD_map_cast, true_and]
    intro hsum
    rw [foldl_wrapInt64_zero, wrapInt64_of_inInt64 hsum, foldl_add_eq_sum, zero_add,
      ← Int.cast_list_sum, ← truncQ_intCast_div_natCast]

/-- Witness of the amended claim C5 at the samples `[7, -2, 4, 1]`. -/
theorem calculateStatsInt_refines_calculateStats_witness :
    InInt64 ([7, -2, 4, 1] : List Int).sum ∧
    (calculateStatsInt [7, -2, 4, 1]).avg
      = truncQ (calculateStats (([7, -2, 4, 1] : List Int).map (fun v : Int => (v : ℚ)))).avg :=
  ⟨by decide, (calculateStatsInt_refines_calculateStats [7, -2, 4, 1]).2.2.2 (by decide)⟩

/-! ## Unfolding the recommendation engine -/

/-- Every field of the record `analyzeContainer` returns on a non-empty window, each in
terms of the inputs and of the fields computed before it. -/
theorem analyzeContainer_fields (ovf : Int) (cfg : AnalysisConfig) (rows : List (ℚ × Int))
    (request : Option (ℚ × Int)) (h : rows ≠ []) :
    ∃ a, analyzeContainer ovf cfg rows request = Except.ok a ∧
      a.sampleCount = rows.length ∧
      a.p95CPU = (calculateStats (rows.map Prod.fst)).p95 ∧
      a.p95Mem = (calculateStatsInt (rows.map Prod.snd)).p95 ∧
      a.currentCPU = (match request with | some r => r.1 | none => 0.1) ∧
      a.currentMem = (match request with | some r => r.2 | none => 134217728) ∧
      a.recommendedCPU = (if a.p95CPU * 1.2 < 0.01 then 0.01 else a.p95CPU * 1.2) ∧
      a.recommendedMem = (if f64ToInt64 ovf ((a.p95Mem : ℚ) * 1.2) < 33554432 then 33554432
        else f64ToInt64 ovf ((a.p95Mem : ℚ) * 1.2)) ∧
      a.cpuWaste =
        (if (if a.currentCPU > 0 then (a.currentCPU - a.recommendedCPU) / a.currentCPU * 100
              else 0) < -100 then -100
         else (if a.currentCPU > 0 then (a.currentCPU - a.recommendedCPU) / a.currentCPU * 100
              else 0)) ∧
      a.memWaste =
        (if (if a.currentMem > 0 then
              ((wrapInt64 (a.currentMem - a.recommendedMem) : Int) : ℚ) / (a.currentMem : ℚ) * 100
              else 0) < -100 then -100
         else (if a.currentMem > 0 then
              ((wrapInt64 (a.currentMem - a.recommendedMem) : Int) : ℚ) / (a.currentMem : ℚ) * 100
              else 0)) ∧
      a.monthlySavings =
        (if (if a.cpuWaste > 0 then (a.currentCPU - a.recommendedCPU) * cfg.CPUCostPerCore else 0)
            + (if a.memWaste > 0 then
                ((wrapInt64 (a.currentMem - a.recommendedMem) : Int) : ℚ) / 1073741824
                  * cfg.MemoryCostPerGB else 0) < 0 then 0
         else (if a.cpuWaste > 0 then (a.currentCPU - a.recommendedCPU) * cfg.CPUCostPerCore else 0)
            + (if a.memWaste > 0 then
                ((wrapInt64 (a.currentMem - a.recommendedMem) : Int) : ℚ) / 1073741824
                  * cfg.MemoryCostPerGB else 0)) ∧
      a.status = (if a.cpuWaste > 30 ∨ a.memWaste > 30 then "over-provisioned"
        else if a.cpuWaste < -20 ∨ a.memWaste < -20 then "under-provisioned" else "optimal") ∧
      a.confidence = (if a.sampleCount ≥ 100 then "high"
        else if a.sampleCount ≥ 20 then "medium" else "low") := by
  have hl : (rows.map Prod.fst).length ≠ 0 := by
    rw [List.length_map]; exact fun h0 => h (List.length_eq_zero.mp h0)
  unfold analyzeContainer
  simp only [hl, if_false]
  refine ⟨_, rfl, ?_⟩
  refine ⟨by simp, rfl, rfl, rfl, ?_, rfl, ?_, rfl, rfl, ?_, rfl, rfl⟩
  · cases request <;> norm_num
  · norm_num
  · norm_num

/-! ## Recommendation engine: claims -/

/-- Claim C6. For every non-empty sample window and every current request (present or
absent), `analyzeContainer` returns an analysis whose recommended CPU is at least 0.01 core
and whose recommended memory is at least 32 MiB (33554432 bytes). -/
theorem analyzeContainer_recommended_ge_floor (ovf : Int) (cfg : AnalysisConfig)
    (rows : List (ℚ × Int)) (request : Option (ℚ × Int)) (h : rows ≠ []) :
    ∃ a, analyzeContainer ovf cfg rows request = Except.ok a ∧
      (0.01 : ℚ) ≤ a.recommendedCPU ∧ (33554432 : Int) ≤ a.recommendedMem := by
  obtain ⟨a, ha, -, -, -, -, -, hc, hm, -⟩ := analyzeContainer_fields ovf cfg rows request h
  refine ⟨a, ha, ?_, ?_⟩
  · rw [hc]; split
    · exact le_refl _
    · exact not_lt.mp ‹_›
  · rw [hm]; split <;> omega

/-- Witness of claim C6 at a window of two samples and a request of 1 core, 256 MiB. -/
theorem analyzeContainer_recommended_ge_floor_witness :
    ([(1 / 2, 100000000), (1 / 4, 90000000)] : List (ℚ × Int)) ≠ [] ∧
    ∃ a, analyzeContainer 0 { CPUCostPerCore := 30, MemoryCostPerGB := 10 }
        [(1 / 2, 100000000), (1 / 4, 90000000)] (some (1, 268435456)) = Except.ok a ∧
      (0.01 : ℚ) ≤ a.recommendedCPU ∧ (33554432 : Int) ≤ a.recommendedMem :=
  ⟨by simp, analyzeContainer_recommended_ge_floor 0 { CPUCostPerCore := 30, MemoryCostPerGB := 10 }
    [(1 / 2, 100000000), (1 / 4, 90000000)] (some (1, 268435456)) (by simp)⟩

/-- Claim C7. In `analyzeContainer` the recommended CPU equals p95(CPU) × 1.2 whenever that
product is at least 0.01 and equals 0.01 otherwise; the recommended memory equals
p95(memory) × 1.2 as a whole number of bytes, the conversion `int64(float64(p95Mem) * 1.2)`,
whenever that is at least 32 MiB and equals 32 MiB otherwise; the whole number is the
product truncated toward zero whenever the truncation is an `int64` value. -/
theorem analyzeContainer_recommended_eq (ovf : Int) (cfg : AnalysisConfig)
    (rows : List (ℚ × Int)) (request : Option (ℚ × Int)) (h : rows ≠ []) :
    ∃ a, analyzeContainer ovf cfg rows request = Except.ok a ∧
      a.p95CPU = (calculateStats (rows.map Prod.fst)).p95 ∧
      a.p95Mem = (calculateStatsInt (rows.map Prod.snd)).p95 ∧
      a.recommendedCPU = (if 0.01 ≤ a.p95CPU * 1.2 then a.p95CPU * 1.2 else 0.01) ∧
      a.recommendedMem = (if 33554432 ≤ f64ToInt64 ovf ((a.p95Mem : ℚ) * 1.2)
        then f64ToInt64 ovf ((a.p95Mem : ℚ) * 1.2) else 33554432) ∧
      (InInt64 (truncQ ((a.p95Mem : ℚ) * 1.2)) →
        a.recommendedMem = (if 33554432 ≤ truncQ ((a.p95Mem : ℚ) * 1.2)
          then truncQ ((a.p95Mem : ℚ) * 1.2) else 33554432)) := by
  obtain ⟨a, ha, -, h1, h2, -, -, hc, hm, -⟩ := analyzeContainer_fields ovf cfg rows request h
  have hm2 : a.recommendedMem = (if 33554432 ≤ f64ToInt64 ovf ((a.p95Mem : ℚ) * 1.2)
      then f64ToInt64 ovf ((a.p95Mem : ℚ) * 1.2) else 33554432) := by
    rw [hm]
    split_ifs with p q q
    · omega
    · rfl
    · rfl
    · omega
  refine ⟨a, ha, h1, h2, ?_, hm2, fun hr => ?_⟩
  · rw [hc]; split_ifs with p q q
    · exact absurd p (not_lt.mpr q)
    · rfl
    · rfl
    · exact absurd (not_lt.mp p) q
  · rw [hm2, f64ToInt64_of_inInt64 ovf hr]

/-- Witness of claim C7 at a window of two samples and a request of 1 core, 256 MiB: the
p95 values are 1/2 core and 100000000 bytes, the recommendation 0.6 core and 120000000
bytes. -/
theorem analyzeContainer_recommended_eq_witness :
    ([(1 / 2, 100000000), (1 / 4, 90000000)] : List (ℚ × Int)) ≠ [] ∧
    ∃ a, analyzeContainer 0 { CPUCostPerCore := 30, MemoryCostPerGB := 10 }
        [(1 / 2, 100000000), (1 / 4, 90000000)] (some (1, 268435456)) = Except.ok a ∧
      a.p95CPU = 1 / 2 ∧ a.p95Mem = 100000000 ∧
      InInt64 (truncQ ((a.p95Mem : ℚ) * 1.2)) ∧
      a.recommendedCPU = (if 0.01 ≤ a.p95CPU * 1.2 then a.p95CPU * 1.2 else 0.01) ∧
      a.recommendedMem = (if 33554432 ≤ truncQ ((a.p95Mem : ℚ) * 1.2)
          then truncQ ((a.p95Mem : ℚ) * 1.2) else 33554432) := by
  refine ⟨by simp, ?_⟩
  obtain ⟨a, ha, h1, h2, hc, -, hm⟩ := analyzeContainer_recommended_eq 0
    { CPUCostPerCore := 30, MemoryCostPerGB := 10 }
    [(1 / 2, 100000000), (1 / 4, 90000000)] (some (1, 268435456)) (by simp)
  have e1 : a.p95CPU = 1 / 2 := by
    rw [h1, calculateStats_of_ne_nil (by simp)]
    simp only [List.map, List.length, percentileIndex_95]
    norm_num [sortFloat64s]
  have e2 : a.p95Mem = 100000000 := by
    rw [h2, calculateStatsInt_of_ne_nil (by simp)]
    simp only [List.map, List.length, percentileIndex_95]
    norm_num [sortSlice]
  have hin : InInt64 (truncQ ((a.p95Mem : ℚ) * 1.2)) := by
    rw [e2]
    norm_num [truncQ, InInt64]
  exact ⟨a, ha, e1, e2, hin, hc, hm hin⟩

/-- The waste percentages as the code computes them, under its guards `currentCPU > 0` and
`currentMem > 0`: 0 when the guard fails, otherwise (current − recommended) / current × 100
with the lower bound −100. The memory request and the result of an out-of-range conversion
are `int64` values. -/
theorem analyzeContainer_waste_of_guard (ovf : Int) (cfg : AnalysisConfig)
    (rows : List (ℚ × Int)) (request : Option (ℚ × Int)) (h : rows ≠ [])
    (hovf : InInt64 ovf) (hreq : ∀ r, request = some r → InInt64 r.2) :
    ∃ a, analyzeContainer ovf cfg rows request = Except.ok a ∧
      (∀ r, request = some r → a.currentCPU = r.1 ∧ a.currentMem = r.2) ∧
      (request = none → a.currentCPU = 0.1 ∧ a.currentMem = 134217728) ∧
      a.cpuWaste = (if a.currentCPU ≤ 0 then 0
        else max (-100) ((a.currentCPU - a.recommendedCPU) / a.currentCPU * 100)) ∧
      a.memWaste = (if a.currentMem ≤ 0 then 0
        else max (-100)
          (((a.currentMem - a.recommendedMem : Int) : ℚ) / (a.currentMem : ℚ) * 100)) := by
  obtain ⟨a, ha, -, -, -, c1, c2, -, hm, w1, w2, -⟩ :=
    analyzeContainer_fields ovf cfg rows request h
  refine ⟨a, ha, ?_, ?_, ?_, ?_⟩
  · rintro r rfl
    exact ⟨c1, c2⟩
  · rintro rfl
    exact ⟨c1, c2⟩
  · rw [w1, clamp_eq_max]
    split_ifs with p q q
    · exact absurd p (not_lt.mpr q)
    · rfl
    · norm_num
    · exact absurd (not_le.mp q) p
  · have hcur : InInt64 a.currentMem := by
      rw [c2]
      cases request with
      | none => decide
      | some r => exact hreq r rfl
    have hrec := recommendedMem_inInt64 hovf ((a.p95Mem : ℚ) * 1.2)
    rw [← hm] at hrec
    rw [w2, clamp_eq_max]
    split_ifs with p q q
    · exact absurd p (not_lt.mpr q)
    · rw [wrapInt64_sub_of_pos hcur p hrec.1 hrec.2]
    · norm_num
    · exact absurd (not_le.mp q) p

/-- Claim C8. For each dimension (CPU, memory), for every non-empty window (hence every
recommended value) and every current request, a request being a pair of quantities that
are not negative: if the current request is 0 the waste percentage is 0; otherwise the
waste percentage is (current − recommended) / current × 100, replaced by −100 when that
quotient is below −100. The memory request and the result of an out-of-range conversion
are `int64` values. -/
theorem analyzeContainer_waste_formula (ovf : Int) (cfg : AnalysisConfig)
    (rows : List (ℚ × Int)) (request : Option (ℚ × Int)) (h : rows ≠ [])
    (hovf : InInt64 ovf) (hreq : ∀ r, request = some r → InInt64 r.2)
    (hnn : ∀ r, request = some r → 0 ≤ r.1 ∧ 0 ≤ r.2) :
    ∃ a, analyzeContainer ovf cfg rows request = Except.ok a ∧
      (∀ r, request = some r → a.currentCPU = r.1 ∧ a.currentMem = r.2) ∧
      (a.currentCPU = 0 → a.cpuWaste = 0) ∧
      (a.currentCPU ≠ 0 → a.cpuWaste =
        (if (a.currentCPU - a.recommendedCPU) / a.currentCPU * 100 < -100 then -100
          else (a.currentCPU - a.recommendedCPU) / a.currentCPU * 100)) ∧
      (a.currentMem = 0 → a.memWaste = 0) ∧
      (a.currentMem ≠ 0 → a.memWaste =
        (if ((a.currentMem - a.recommendedMem : Int) : ℚ) / (a.currentMem : ℚ) * 100 < -100
          then -100
          else ((a.currentMem - a.recommendedMem : Int) : ℚ) / (a.currentMem : ℚ) * 100)) := by
  obtain ⟨a, ha, hr, hn, w1, w2⟩ :=
    analyzeContainer_waste_of_guard ovf cfg rows request h hovf hreq
  have hc : 0 ≤ a.currentCPU ∧ 0 ≤ a.currentMem := by
    cases hq : request with
    | none =>
      obtain ⟨e1, e2⟩ := hn hq
      rw [e1, e2]
      constructor <;> norm_num
    | some r =>
      obtain ⟨e1, e2⟩ := hr r hq
      rw [e1, e2]
      exact hnn r hq
  refine ⟨a, ha, hr, ?_, ?_, ?_, ?_⟩
  · intro h0
    rw [w1, if_pos (le_of_eq h0)]
  · intro h0
    rw [w1, if_neg (not_le.mpr (lt_of_le_of_ne hc.1 (Ne.symm h0))), clamp_eq_max]
  · intro h0
    rw [w2, if_pos (le_of_eq h0)]
  · intro h0
    rw [w2, if_neg (not_le.mpr (lt_of_le_of_ne hc.2 (Ne.symm h0))), clamp_eq_max]

/-- Witness of claim C8 at a window of two samples and a request of 0 cores, 256 MiB: the
CPU waste is 0 and the memory waste follows the formula. -/
theorem analyzeContainer_waste_formula_witness :
    ([(1 / 2, 100000000), (1 / 4, 90000000)] : List (ℚ × Int)) ≠ [] ∧ InInt64 0 ∧
    (∀ r : ℚ × Int, some ((0 : ℚ), (268435456 : Int)) = some r → InInt64 r.2) ∧
    (∀ r : ℚ × Int, some ((0 : ℚ), (268435456 : Int)) = some r → 0 ≤ r.1 ∧ 0 ≤ r.2) ∧
    ∃ a, analyzeContainer 0 { CPUCostPerCore := 30, MemoryCostPerGB := 10 }
        [(1 / 2, 100000000), (1 / 4, 90000000)] (some (0, 268435456)) = Except.ok a ∧
      a.currentCPU = 0 ∧ a.currentMem = 268435456 ∧ a.cpuWaste = 0 ∧
      a.memWaste =
        (if ((a.currentMem - a.recommendedMem : Int) : ℚ) / (a.currentMem : ℚ) * 100 < -100
          then -100
          else ((a.currentMem - a.recommendedMem : Int) : ℚ) / (a.currentMem : ℚ) * 100) := by
  have hnn : ∀ r : ℚ × Int, some ((0 : ℚ), (268435456 : Int)) = some r → 0 ≤ r.1 ∧ 0 ≤ r.2 := by
    rintro r ⟨⟩
    constructor <;> norm_num
  have hin : ∀ r : ℚ × Int, some ((0 : ℚ), (268435456 : Int)) = some r → InInt64 r.2 := by
    rintro r ⟨⟩
    decide
  obtain ⟨a, ha, hr, z1, -, -, n2⟩ := analyzeContainer_waste_formula 0
    { CPUCostPerCore := 30, MemoryCostPerGB := 10 }
    [(1 / 2, 100000000), (1 / 4, 90000000)] (some (0, 268435456)) (by simp) (by decide)
    hin hnn
  obtain ⟨e1, e2⟩ := hr _ rfl
  simp only at e1 e2
  exact ⟨by simp, by decide, hin, hnn, a, ha, e1, e2, z1 e1, n2 (by rw [e2]; decide)⟩

/-- Claim C9. For every non-empty sample window and every current request, the CPU waste
percentage and the memory waste percentage computed by `analyzeContainer` are never
below −100. -/
theorem analyzeContainer_waste_ge_neg_hundred (ovf : Int) (cfg : AnalysisConfig)
    (rows : List (ℚ × Int)) (request : Option (ℚ × Int)) (h : rows ≠ []) :
    ∃ a, analyzeContainer ovf cfg rows request = Except.ok a ∧
      -100 ≤ a.cpuWaste ∧ -100 ≤ a.memWaste := by
  obtain ⟨a, ha, -, -, -, -, -, -, -, w1, w2, -⟩ :=
    analyzeContainer_fields ovf cfg rows request h
  refine ⟨a, ha, ?_, ?_⟩
  · rw [w1, clamp_eq_max]; exact le_max_left _ _
  · rw [w2, clamp_eq_max]; exact le_max_left _ _

/-- Witness of claim C9 at a sample of 5 cores against the default request, where the
unclamped CPU waste is −5900. -/
theorem analyzeContainer_waste_ge_neg_hundred_witness :
    ([(5, 100000000)] : List (ℚ × Int)) ≠ [] ∧
    ∃ a, analyzeContainer 0 { CPUCostPerCore := 30, MemoryCostPerGB := 10 }
        [(5, 100000000)] none = Except.ok a ∧
      -100 ≤ a.cpuWaste ∧ -100 ≤ a.memWaste :=
  ⟨by simp, analyzeContainer_waste_ge_neg_hundred 0
    { CPUCostPerCore := 30, MemoryCostPerGB := 10 } [(5, 100000000)] none (by simp)⟩

/-- Claim C10. The monthly savings of `analyzeContainer` equal `max 0 (cpuPart + memPart)`,
where cpuPart is (current CPU − recommended CPU) × cost-per-core if the CPU waste is
positive and 0 otherwise, and memPart is (current memory − recommended memory) / 2^30 ×
cost-per-GiB if the memory waste is positive and 0 otherwise; for every input and every
configured cost the monthly savings are at least 0. -/
theorem analyzeContainer_monthlySavings (ovf : Int) (cfg : AnalysisConfig)
    (rows : List (ℚ × Int)) (request : Option (ℚ × Int)) (h : rows ≠ []) :
    ∃ a, analyzeContainer ovf cfg rows request = Except.ok a ∧
      0 ≤ a.monthlySavings ∧
      (InInt64 ovf → (∀ r, request = some r → InInt64 r.2) →
        a.monthlySavings = max 0
          ((if 0 < a.cpuWaste then (a.currentCPU - a.recommendedCPU) * cfg.CPUCostPerCore
              else 0)
            + (if 0 < a.memWaste then
                ((a.currentMem - a.recommendedMem : Int) : ℚ) / 2 ^ 30 * cfg.MemoryCostPerGB
              else 0))) := by
  obtain ⟨a, ha, -, -, -, -, c2, -, hm, -, w2, s, -⟩ :=
    analyzeContainer_fields ovf cfg rows request h
  refine ⟨a, ha, ?_, fun hovf hreq => ?_⟩
  · rw [s, floor_eq_max]; exact le_max_left _ _
  · have hcur : InInt64 a.currentMem := by
      rw [c2]
      cases request with
      | none => decide
      | some r => exact hreq r rfl
    have hrec := recommendedMem_inInt64 hovf ((a.p95Mem : ℚ) * 1.2)
    rw [← hm] at hrec
    rw [s, floor_eq_max]
    by_cases hw : 0 < a.memWaste
    · have hpos : 0 < a.currentMem := by
        by_contra hn
        rw [w2, if_neg hn] at hw
        norm_num at hw
      rw [wrapInt64_sub_of_pos hcur hpos hrec.1 hrec.2]
      norm_num
    · simp only [gt_iff_lt, hw, if_false]

/-- Witness of claim C10 at a window of two samples, a request of 1 core, 256 MiB, and a
negative cost per core. -/
theorem analyzeContainer_monthlySavings_witness :
    ([(1 / 2, 100000000), (1 / 4, 90000000)] : List (ℚ × Int)) ≠ [] ∧ InInt64 0 ∧
    (∀ r : ℚ × Int, some ((1 : ℚ), (268435456 : Int)) = some r → InInt64 r.2) ∧
    ∃ a, analyzeContainer 0 { CPUCostPerCore := -30, MemoryCostPerGB := 10 }
        [(1 / 2, 100000000), (1 / 4, 90000000)] (some (1, 268435456)) = Except.ok a ∧
      0 ≤ a.monthlySavings ∧
      a.monthlySavings = max 0
        ((if 0 < a.cpuWaste then (a.currentCPU - a.recommendedCPU) * (-30) else 0)
          + (if 0 < a.memWaste then
              ((a.currentMem - a.recommendedMem : Int) : ℚ) / 2 ^ 30 * 10
            else 0)) := by
  have hreq : ∀ r : ℚ × Int, some ((1 : ℚ), (268435456 : Int)) = some r → InInt64 r.2 := by
    rintro r ⟨⟩; decide
  obtain ⟨a, ha, h0, hs⟩ := analyzeContainer_monthlySavings 0
    { CPUCostPerCore := -30, MemoryCostPerGB := 10 }
    [(1 / 2, 100000000), (1 / 4, 90000000)] (some (1, 268435456)) (by simp)
  exact ⟨by simp, by decide, hreq, a, ha, h0, hs (by decide) hreq⟩


/-! ## Status, confidence and the end-to-end scenarios -/

theorem calculateStats_p95_mem {values : List ℚ} (h : values ≠ []) :
    (calculateStats values).p95 ∈ values := by
  rw [calculateStats_of_ne_nil h]
  exact (List.mem_insertionSort (· ≤ ·)).mp (getD_mem_of_lt _ 0
    (by rw [List.length_insertionSort]; exact percentileIndex_lt _ (List.length_pos.mpr h)))

theorem calculateStatsInt_p95_mem {values : List Int} (h : values ≠ []) :
    (calculateStatsInt values).p95 ∈ values := by
  rw [calculateStatsInt_of_ne_nil h]
  exact (List.mem_insertionSort (· ≤ ·)).mp (getD_mem_of_lt _ 0
    (by rw [List.length_insertionSort]; exact percentileIndex_lt _ (List.length_pos.mpr h)))

/-- Claim C11. The status of an analysis is one of three values, chosen first-match from
the two waste percentages: over-provisioned if cpuWaste > 30 or memWaste > 30; otherwise
under-provisioned if cpuWaste < −20 or memWaste < −20; otherwise optimal. Hence it is
optimal iff both wastes lie in the closed interval [−20, 30], and over-provisioned wins
when one waste is above 30 and the other below −20. -/
theorem analyzeContainer_status (ovf : Int) (cfg : AnalysisConfig)
    (rows : List (ℚ × Int)) (request : Option (ℚ × Int)) (h : rows ≠ []) :
    ∃ a, analyzeContainer ovf cfg rows request = Except.ok a ∧
      (a.status = "over-provisioned" ∨ a.status = "under-provisioned" ∨ a.status = "optimal") ∧
      (a.status = "over-provisioned" ↔ (a.cpuWaste > 30 ∨ a.memWaste > 30)) ∧
      (a.status = "under-provisioned" ↔
        (¬ (a.cpuWaste > 30 ∨ a.memWaste > 30) ∧ (a.cpuWaste < -20 ∨ a.memWaste < -20))) ∧
      (a.status = "optimal" ↔
        (-20 ≤ a.cpuWaste ∧ a.cpuWaste ≤ 30 ∧ -20 ≤ a.memWaste ∧ a.memWaste ≤ 30)) ∧
      (a.cpuWaste > 30 ∧ a.memWaste < -20 → a.status = "over-provisioned") ∧
      (a.memWaste > 30 ∧ a.cpuWaste < -20 → a.status = "over-provisioned") := by
  obtain ⟨a, ha, -, -, -, -, -, -, -, -, -, -, hs, -⟩ :=
    analyzeContainer_fields ovf cfg rows request h
  refine ⟨a, ha, ?_⟩
  have d1 : ("over-provisioned" : String) ≠ "under-provisioned" := by decide
  have d2 : ("over-provisioned" : String) ≠ "optimal" := by decide
  have d3 : ("under-provisioned" : String) ≠ "optimal" := by decide
  by_cases h1 : a.cpuWaste > 30 ∨ a.memWaste > 30
  · rw [if_pos h1] at hs
    rw [hs]
    refine ⟨Or.inl rfl, ⟨fun _ => h1, fun _ => rfl⟩, ⟨fun hh => absurd hh d1, fun hh => absurd h1 hh.1⟩,
      ⟨fun hh => absurd hh d2, ?_⟩, fun _ => rfl, fun _ => rfl⟩
    rintro ⟨-, h2, -, h3⟩
    rcases h1 with h1 | h1
    · exact absurd h1 (not_lt.mpr h2)
    · exact absurd h1 (not_lt.mpr h3)
  · have n1 : ¬ a.cpuWaste > 30 := fun hh => h1 (Or.inl hh)
    have n2 : ¬ a.memWaste > 30 := fun hh => h1 (Or.inr hh)
    rw [if_neg h1] at hs
    by_cases h2 : a.cpuWaste < -20 ∨ a.memWaste < -20
    · rw [if_pos h2] at hs
      rw [hs]
      refine ⟨Or.inr (Or.inl rfl), ⟨fun hh => absurd hh.symm d1, fun hh => absurd hh h1⟩,
        ⟨fun _ => ⟨h1, h2⟩, fun _ => rfl⟩, ⟨fun hh => absurd hh d3, ?_⟩,
        fun hh => absurd hh.1 n1, fun hh => absurd hh.1 n2⟩
      rintro ⟨h3, -, h4, -⟩
      rcases h2 with h2 | h2
      · exact absurd h2 (not_lt.mpr h3)
      · exact absurd h2 (not_lt.mpr h4)
    · rw [if_neg h2] at hs
      rw [hs]
      refine ⟨Or.inr (Or.inr rfl), ⟨fun hh => absurd hh.symm d2, fun hh => absurd hh h1⟩,
        ⟨fun hh => absurd hh.symm d3, fun hh => absurd hh.2 h2⟩, ⟨fun _ => ?_, fun _ => rfl⟩,
        fun hh => absurd hh.1 n1, fun hh => absurd hh.1 n2⟩
      exact ⟨not_lt.mp (fun hh => h2 (Or.inl hh)), not_lt.mp n1,
        not_lt.mp (fun hh => h2 (Or.inr hh)), not_lt.mp n2⟩


/-- Witness of claim C11 on the boundary: a window whose CPU waste is exactly 30 and whose
memory waste is exactly −20 is classified optimal. -/
theorem analyzeContainer_status_witness :
    ([(7 / 12, 100000000)] : List (ℚ × Int)) ≠ [] ∧
    ∃ a, analyzeContainer 0 { CPUCostPerCore := 30, MemoryCostPerGB := 10 }
        [(7 / 12, 100000000)] (some (1, 100000000)) = Except.ok a ∧
      a.cpuWaste = 30 ∧ a.memWaste = -20 ∧ a.status = "optimal" := by
  refine ⟨by simp, ?_⟩
  obtain ⟨a, ha, -, -, -, ho, -⟩ := analyzeContainer_status 0
    { CPUCostPerCore := 30, MemoryCostPerGB := 10 } [(7 / 12, 100000000)]
    (some (1, 100000000)) (by simp)
  have e : analyzeContainer 0 { CPUCostPerCore := 30, MemoryCostPerGB := 10 }
      [(7 / 12, 100000000)] (some (1, 100000000)) = Except.ok
        { sampleCount := 1, avgCPU := 7 / 12, maxCPU := 7 / 12, p95CPU := 7 / 12,
          p99CPU := 7 / 12, avgMem := 100000000, maxMem := 100000000, p95Mem := 100000000,
          p99Mem := 100000000, currentCPU := 1, currentMem := 100000000,
          recommendedCPU := 7 / 10, recommendedMem := 120000000,
          cpuWaste := 30, memWaste := -20, monthlySavings := 9,
          status := "optimal", confidence := "low" } := by
    have t : Int.tdiv 100000000 1 = 100000000 := by decide
    norm_num [analyzeContainer, calculateStats, calculateStatsInt, sortFloat64s, sortSlice,
      percentileIndex_one, f64ToInt64, truncQ, wrapInt64, InInt64, t]
  rw [e] at ha
  cases ha
  exact ⟨_, e, rfl, rfl, ho.mpr (by norm_num)⟩

/-- Claim C12. The confidence of an analysis is a function of the number `n` of samples in
the window only: high if n ≥ 100, medium if 20 ≤ n < 100, low if n < 20; two analyses with
the same sample count get the same confidence whatever the sample values, the requests,
the costs and the platform. -/
theorem analyzeContainer_confidence (ovf ovf2 : Int) (cfg cfg2 : AnalysisConfig)
    (rows rows2 : List (ℚ × Int)) (request request2 : Option (ℚ × Int))
    (h : rows ≠ []) (hlen : rows2.length = rows.length) :
    ∃ a a2, analyzeContainer ovf cfg rows request = Except.ok a ∧
      analyzeContainer ovf2 cfg2 rows2 request2 = Except.ok a2 ∧
      a.sampleCount = rows.length ∧
      (100 ≤ rows.length → a.confidence = "high") ∧
      (20 ≤ rows.length ∧ rows.length < 100 → a.confidence = "medium") ∧
      (rows.length < 20 → a.confidence = "low") ∧
      a2.confidence = a.confidence := by
  have h2 : rows2 ≠ [] := by
    intro h0
    rw [h0] at hlen
    exact h (List.length_eq_zero.mp hlen.symm)
  obtain ⟨a, ha, n1, -, -, -, -, -, -, -, -, -, -, c1⟩ :=
    analyzeContainer_fields ovf cfg rows request h
  obtain ⟨a2, ha2, n2, -, -, -, -, -, -, -, -, -, -, c2⟩ :=
    analyzeContainer_fields ovf2 cfg2 rows2 request2 h2
  rw [n1] at c1
  rw [n2, hlen] at c2
  refine ⟨a, a2, ha, ha2, n1, fun h100 => ?_, fun h20 => ?_, fun hlow => ?_, ?_⟩
  · rw [c1, if_pos h100]
  · rw [c1, if_neg (by omega), if_pos h20.1]
  · rw [c1, if_neg (by omega), if_neg (by omega)]
  · rw [c1, c2]

/-- Witness of claim C12: two windows of one sample each, with different values, requests
and costs. -/
theorem analyzeContainer_confidence_witness :
    ([(5, 100000000)] : List (ℚ × Int)) ≠ [] ∧
    ([(1 / 3, 7)] : List (ℚ × Int)).length = ([(5, 100000000)] : List (ℚ × Int)).length ∧
    ∃ a a2, analyzeContainer 0 { CPUCostPerCore := 30, MemoryCostPerGB := 10 }
        [(5, 100000000)] none = Except.ok a ∧
      analyzeContainer 1 { CPUCostPerCore := 1, MemoryCostPerGB := 2 }
        [(1 / 3, 7)] (some (4, 4096)) = Except.ok a2 ∧
      a.sampleCount = ([(5, 100000000)] : List (ℚ × Int)).length ∧
      (100 ≤ ([(5, 100000000)] : List (ℚ × Int)).length → a.confidence = "high") ∧
      (20 ≤ ([(5, 100000000)] : List (ℚ × Int)).length ∧
        ([(5, 100000000)] : List (ℚ × Int)).length < 100 → a.confidence = "medium") ∧
      (([(5, 100000000)] : List (ℚ × Int)).length < 20 → a.confidence = "low") ∧
      a2.confidence = a.confidence :=
  ⟨by simp, by simp, analyzeContainer_confidence 0 1
    { CPUCostPerCore := 30, MemoryCostPerGB := 10 } { CPUCostPerCore := 1, MemoryCostPerGB := 2 }
    [(5, 100000000)] [(1 / 3, 7)] none (some (4, 4096)) (by simp) (by simp)⟩


/-- Claim C15. For every window of at least 100 snapshots whose CPU values all lie in
[0.1, 0.5] and a current CPU request of 1.0 core, the analysis has confidence high,
recommended CPU = 1.2 × p95(CPU), between 0.12 and 0.6, a CPU waste of at least 40, and
status over-provisioned, whatever the memory samples and the memory request. -/
theorem analyzeContainer_scenario_over_provisioned (ovf : Int) (cfg : AnalysisConfig)
    (rows : List (ℚ × Int)) (currentMem : Int)
    (hlen : 100 ≤ rows.length) (hcpu : ∀ r ∈ rows, 0.1 ≤ r.1 ∧ r.1 ≤ 0.5) :
    ∃ a, analyzeContainer ovf cfg rows (some (1, currentMem)) = Except.ok a ∧
      a.confidence = "high" ∧
      a.p95CPU = (calculateStats (rows.map Prod.fst)).p95 ∧
      a.recommendedCPU = 1.2 * a.p95CPU ∧
      0.12 ≤ a.recommendedCPU ∧ a.recommendedCPU ≤ 0.6 ∧
      40 ≤ a.cpuWaste ∧
      a.status = "over-provisioned" := by
  have h : rows ≠ [] := by
    intro h0; rw [h0] at hlen; simp at hlen
  obtain ⟨a, ha, n1, p1, -, c1, -, r1, -, w1, -, -, hs, hc⟩ :=
    analyzeContainer_fields ovf cfg rows (some (1, currentMem)) h
  have hm : (rows.map Prod.fst) ≠ [] := by simpa using h
  have hp : 0.1 ≤ a.p95CPU ∧ a.p95CPU ≤ 0.5 := by
    have hmem := calculateStats_p95_mem hm
    rw [← p1] at hmem
    obtain ⟨r, hr, e⟩ := List.mem_map.mp hmem
    rw [← e]
    exact hcpu r hr
  have c1' : a.currentCPU = 1 := c1
  have r2 : a.recommendedCPU = 1.2 * a.p95CPU := by
    rw [r1, if_neg (by norm_num at hp ⊢; linarith [hp.1])]
    ring
  have w2 : a.cpuWaste = (1 - a.recommendedCPU) * 100 := by
    rw [w1, c1']
    norm_num
    intro hh
    rw [r2] at hh
    norm_num at hp
    linarith [hp.2]
  have w3 : 40 ≤ a.cpuWaste := by
    rw [w2, r2]
    norm_num at hp ⊢
    linarith [hp.2]
  refine ⟨a, ha, ?_, p1, r2, ?_, ?_, w3, ?_⟩
  · rw [hc, n1, if_pos hlen]
  · rw [r2]; norm_num at hp ⊢; linarith [hp.1]
  · rw [r2]; norm_num at hp ⊢; linarith [hp.2]
  · rw [hs, if_pos (Or.inl (by linarith))]

/-- Witness of claim C15 at the spec's case of 150 snapshots, each of 0.3 core. -/
theorem analyzeContainer_scenario_over_provisioned_witness :
    100 ≤ (List.replicate 150 ((3 / 10 : ℚ), (50000000 : Int))).length ∧
    (∀ r ∈ List.replicate 150 ((3 / 10 : ℚ), (50000000 : Int)), 0.1 ≤ r.1 ∧ r.1 ≤ 0.5) ∧
    ∃ a, analyzeContainer 0 { CPUCostPerCore := 30, MemoryCostPerGB := 10 }
        (List.replicate 150 ((3 / 10 : ℚ), (50000000 : Int))) (some (1, 134217728))
          = Except.ok a ∧
      a.confidence = "high" ∧
      a.p95CPU = (calculateStats
        ((List.replicate 150 ((3 / 10 : ℚ), (50000000 : Int))).map Prod.fst)).p95 ∧
      a.recommendedCPU = 1.2 * a.p95CPU ∧
      0.12 ≤ a.recommendedCPU ∧ a.recommendedCPU ≤ 0.6 ∧
      40 ≤ a.cpuWaste ∧
      a.status = "over-provisioned" := by
  have h1 : 100 ≤ (List.replicate 150 ((3 / 10 : ℚ), (50000000 : Int))).length := by simp
  have h2 : ∀ r ∈ List.replicate 150 ((3 / 10 : ℚ), (50000000 : Int)),
      0.1 ≤ r.1 ∧ r.1 ≤ 0.5 := by
    intro r hr
    rw [List.eq_of_mem_replicate hr]
    norm_num
  exact ⟨h1, h2, analyzeContainer_scenario_over_provisioned 0
    { CPUCostPerCore := 30, MemoryCostPerGB := 10 }
    (List.replicate 150 ((3 / 10 : ℚ), (50000000 : Int))) 134217728 h1 h2⟩


/-- Counterexample to claim C16 as stated. Five snapshots of 2.0 cores and 1 byte against
a request of 1.0 core and 1 GiB: the CPU waste is −100, but the memory waste is 96.875,
above 30, so the first-match rule classifies the container over-provisioned. -/
theorem analyzeContainer_scenario_under_provisioned_fails :
    ∃ a, analyzeContainer 0 { CPUCostPerCore := 30, MemoryCostPerGB := 10 }
        [(2, 1), (2, 1), (2, 1), (2, 1), (2, 1)] (some (1, 1073741824)) = Except.ok a ∧
      a.sampleCount = 5 ∧ a.p95CPU = 2 ∧ a.currentCPU = 1 ∧ a.cpuWaste = -100 ∧
      a.memWaste = 775 / 8 ∧ a.confidence = "low" ∧
      a.status = "over-provisioned" ∧ a.status ≠ "under-provisioned" := by
  have q95 : (19 / 20 : ℚ) = 0.95 := by norm_num
  have q99 : (99 / 100 : ℚ) = 0.99 := by norm_num
  have i95 : percentileIndex 5 (19 / 20) = 4 := by rw [q95, percentileIndex_95]; decide
  have i99 : percentileIndex 5 (99 / 100) = 4 := by rw [q99, percentileIndex_99]; decide
  have t : Int.tdiv 5 5 = 1 := by decide
  refine ⟨{ sampleCount := 5, avgCPU := 2, maxCPU := 2, p95CPU := 2, p99CPU := 2,
            avgMem := 1, maxMem := 1, p95Mem := 1, p99Mem := 1,
            currentCPU := 1, currentMem := 1073741824,
            recommendedCPU := 12 / 5, recommendedMem := 33554432,
            cpuWaste := -100, memWaste := 775 / 8, monthlySavings := 155 / 16,
            status := "over-provisioned", confidence := "low" }, ?_, rfl, rfl, rfl, rfl, rfl,
            rfl, rfl, by decide⟩
  norm_num [analyzeContainer, calculateStats, calculateStatsInt, sortFloat64s, sortSlice,
    i95, i99, f64ToInt64, truncQ, wrapInt64, InInt64, t]

/-- Claim C16, amended. For every window of 5 snapshots whose CPU usage is 2.0 cores each
and a current CPU request of 1.0 core, the analysis has confidence low and CPU waste −100;
its status is under-provisioned whenever the memory waste is at most 30, and
over-provisioned when the memory waste is above 30. -/
theorem analyzeContainer_scenario_under_provisioned (ovf : Int) (cfg : AnalysisConfig)
    (rows : List (ℚ × Int)) (currentMem : Int)
    (hlen : rows.length = 5) (hcpu : ∀ r ∈ rows, r.1 = 2) :
    ∃ a, analyzeContainer ovf cfg rows (some (1, currentMem)) = Except.ok a ∧
      a.confidence = "low" ∧ a.cpuWaste = -100 ∧
      (a.memWaste ≤ 30 → a.status = "under-provisioned") ∧
      (30 < a.memWaste → a.status = "over-provisioned") := by
  have h : rows ≠ [] := by
    intro h0; rw [h0] at hlen; simp at hlen
  obtain ⟨a, ha, n1, p1, -, c1, -, r1, -, w1, -, -, hs, hc⟩ :=
    analyzeContainer_fields ovf cfg rows (some (1, currentMem)) h
  have hm : (rows.map Prod.fst) ≠ [] := by simpa using h
  have hp : a.p95CPU = 2 := by
    have hmem := calculateStats_p95_mem hm
    rw [← p1] at hmem
    obtain ⟨r, hr, e⟩ := List.mem_map.mp hmem
    rw [← e]
    exact hcpu r hr
  have c1' : a.currentCPU = 1 := c1
  have r2 : a.recommendedCPU = 12 / 5 := by
    rw [r1, hp]; norm_num
  have w2 : a.cpuWaste = -100 := by
    rw [w1, c1', r2]; norm_num
  refine ⟨a, ha, ?_, w2, fun hle => ?_, fun hgt => ?_⟩
  · rw [hc, n1, hlen]; rfl
  · rw [hs, if_neg, if_pos]
    · left; rw [w2]; norm_num
    · rintro (h1 | h1)
      · rw [w2] at h1; norm_num at h1
      · exact absurd h1 (not_lt.mpr hle)
  · rw [hs, if_pos (Or.inr hgt)]

/-- Witness of the amended claim C16 at five snapshots of 2.0 cores and 100 MB against a
request of 1.0 core and 128 MiB. -/
theorem analyzeContainer_scenario_under_provisioned_witness :
    ([(2, 100000000), (2, 100000000), (2, 100000000), (2, 100000000), (2, 100000000)] :
      List (ℚ × Int)).length = 5 ∧
    (∀ r ∈ ([(2, 100000000), (2, 100000000), (2, 100000000), (2, 100000000),
      (2, 100000000)] : List (ℚ × Int)), r.1 = 2) ∧
    ∃ a, analyzeContainer 0 { CPUCostPerCore := 30, MemoryCostPerGB := 10 }
        [(2, 100000000), (2, 100000000), (2, 100000000), (2, 100000000), (2, 100000000)]
        (some (1, 134217728)) = Except.ok a ∧
      a.confidence = "low" ∧ a.cpuWaste = -100 ∧
      (a.memWaste ≤ 30 → a.status = "under-provisioned") ∧
      (30 < a.memWaste → a.status = "over-provisioned") :=
  ⟨by simp, by simp, analyzeContainer_scenario_under_provisioned 0
    { CPUCostPerCore := 30, MemoryCostPerGB := 10 }
    [(2, 100000000), (2, 100000000), (2, 100000000), (2, 100000000), (2, 100000000)]
    134217728 (by simp) (by simp)⟩


/-! ## The collector: unfolding -/

theorem scanRows_nil {α : Type} (w : World) (n : Nat) : w.scanRows n ([] : List α) = [] := rfl

theorem selectMetrics_eq_nil (st : Store) (containerID windowStart : Int)
    (h : ∀ m ∈ st.metrics_snapshots, ¬ (m.container_id = containerID ∧ windowStart ≤ m.timestamp)) :
    st.selectMetrics containerID windowStart = [] := by
  unfold Store.selectMetrics
  have hf : st.metrics_snapshots.filter
      (fun m => m.container_id = containerID ∧ windowStart ≤ m.timestamp) = [] := by
    rw [List.filter_eq_nil_iff]
    intro m hm
    simpa using h m hm
  rw [hf]
  rfl

/-- On a window without snapshots `Collector.analyzeContainer` leaves the database as it
is and returns an error: the error of the query, or `no metrics data`. -/
theorem Collector.analyzeContainer_of_empty_window (c : Collector) (w : World) (s : State)
    (containerID : Int) (ns podName containerName : String)
    (h : ∀ m ∈ s.store.metrics_snapshots,
      ¬ (m.container_id = containerID ∧ w.now s.calls - 7 * 24 * Hour ≤ m.timestamp)) :
    (c.analyzeContainer w s containerID ns podName containerName).2.store = s.store ∧
    (c.analyzeContainer w s containerID ns podName containerName).1 =
      some ((w.dbError s.calls).getD "no metrics data") := by
  unfold Collector.analyzeContainer
  simp only [selectMetrics_eq_nil s.store containerID _ h, scanRows_nil]
  cases hq : w.dbError s.calls with
  | some e => simp [State.next]
  | none => simp [State.next]


/-! ## The collector: claims -/

/-- Claim C13. When the window of a container holds no usage snapshot (no row of
`metrics_snapshots` for the container at or after the start of the window),
`Collector.analyzeContainer` writes nothing, neither an Analysis row nor a Recommendation
row, and fails: with the error `no metrics data` when its query succeeds. Conversely,
whenever it writes an Analysis row, the window holds at least one snapshot. -/
theorem collector_analyzeContainer_no_data (c : Collector) (w : World) (s : State)
    (containerID : Int) (ns podName containerName : String) :
    ((∀ m ∈ s.store.metrics_snapshots,
        ¬ (m.container_id = containerID ∧ w.now s.calls - 7 * 24 * Hour ≤ m.timestamp)) →
      (c.analyzeContainer w s containerID ns podName containerName).2.store = s.store ∧
      (c.analyzeContainer w s containerID ns podName containerName).1 ≠ none ∧
      (w.dbError s.calls = none →
        (c.analyzeContainer w s containerID ns podName containerName).1
          = some "no metrics data")) ∧
    ((c.analyzeContainer w s containerID ns podName containerName).2.store.analyses
        ≠ s.store.analyses →
      ∃ m ∈ s.store.metrics_snapshots,
        m.container_id = containerID ∧ w.now s.calls - 7 * 24 * Hour ≤ m.timestamp) := by
  constructor
  · intro h
    obtain ⟨h1, h2⟩ := Collector.analyzeContainer_of_empty_window c w s containerID ns podName
      containerName h
    refine ⟨h1, ?_, fun hq => ?_⟩
    · rw [h2]; simp
    · rw [h2, hq]; rfl
  · intro hne
    by_contra hno
    have h : ∀ m ∈ s.store.metrics_snapshots,
        ¬ (m.container_id = containerID ∧ w.now s.calls - 7 * 24 * Hour ≤ m.timestamp) :=
      fun m hm hk => hno ⟨m, hm, hk⟩
    exact hne (by rw [(Collector.analyzeContainer_of_empty_window c w s containerID ns podName
      containerName h).1])

/-- Witness of claim C13: on the empty database the analysis of container 1 fails with
`no metrics data`; on a database with one snapshot of container 1 it writes an Analysis
row, and the snapshot lies in the window. -/
theorem collector_analyzeContainer_no_data_witness :
    ((∀ m ∈ Store.empty.metrics_snapshots,
        ¬ (m.container_id = 1 ∧ World.quiet.now 0 - 7 * 24 * Hour ≤ m.timestamp)) ∧
      World.quiet.dbError 0 = none ∧
      (Collector.default.analyzeContainer World.quiet { store := Store.empty, calls := 0 }
        1 "default" "web" "app").2.store = Store.empty ∧
      (Collector.default.analyzeContainer World.quiet { store := Store.empty, calls := 0 }
        1 "default" "web" "app").1 = some "no metrics data") ∧
    ((Collector.default.analyzeContainer World.quiet
        { store := Store.oneSnapshot, calls := 0 } 1 "default" "web" "app").2.store.analyses ≠ [] ∧
      ∃ m ∈ Store.oneSnapshot.metrics_snapshots,
        m.container_id = 1 ∧ World.quiet.now 0 - 7 * 24 * Hour ≤ m.timestamp) := by
  have h0 : ∀ m ∈ Store.empty.metrics_snapshots,
      ¬ (m.container_id = 1 ∧ World.quiet.now 0 - 7 * 24 * Hour ≤ m.timestamp) := by
    intro m hm
    simp [Store.empty] at hm
  have h1 : (Collector.default.analyzeContainer World.quiet
        { store := Store.oneSnapshot, calls := 0 } 1 "default" "web" "app").2.store.analyses ≠ [] := by
    obtain ⟨a, ha, -⟩ := analyzeContainer_fields 0
      { CPUCostPerCore := 30, MemoryCostPerGB := 10 } [(2, 100000000)] none (by simp)
    simp [Collector.analyzeContainer, World.quiet, Collector.default, Store.empty, Store.oneSnapshot,
      World.scanRows, Store.selectMetrics, Store.selectLatestRequest, State.next, Hour, Minute,
      List.enum, ha, Store.insertAnalysis, Store.insertRecommendation]
  have t := (collector_analyzeContainer_no_data Collector.default World.quiet
    { store := Store.empty, calls := 0 } 1 "default" "web" "app").1 h0
  exact ⟨⟨h0, rfl, t.1, t.2.2 rfl⟩, h1,
    (collector_analyzeContainer_no_data Collector.default World.quiet
      { store := Store.oneSnapshot, calls := 0 } 1 "default" "web" "app").2 h1⟩


theorem Collect_loop_eq_foldl (c : Collector) (w : World) (pods : List Pod) (s : State) :
    Collector.Collect.loop c w pods s =
      (pods.filter (fun pod => pod.Phase = PodRunning ∧
          (pod.Namespace ≠ "kube-system" ∨ isImportantSystemPod pod.Name = true))).foldl
        (fun st pod => (c.storePod w st pod).2) s := by
  induction pods generalizing s with
  | nil => rfl
  | cons pod rest ih =>
    unfold Collector.Collect.loop
    by_cases h1 : pod.Phase = PodRunning
    · by_cases h2 : pod.Namespace = "kube-system" ∧ ¬ isImportantSystemPod pod.Name = true
      · have hf : ¬ (pod.Phase = PodRunning ∧
            (pod.Namespace ≠ "kube-system" ∨ isImportantSystemPod pod.Name = true)) := by
          rintro ⟨-, h3 | h3⟩
          · exact h3 h2.1
          · exact h2.2 h3
        simp only [ne_eq, h1, not_true_eq_false, if_false, h2, if_true]
        rw [List.filter_cons_of_neg (by simpa using hf)]
        exact ih s
      · have hf : pod.Phase = PodRunning ∧
            (pod.Namespace ≠ "kube-system" ∨ isImportantSystemPod pod.Name = true) := by
          refine ⟨h1, ?_⟩
          by_cases h3 : pod.Namespace = "kube-system"
          · right
            by_contra h4
            exact h2 ⟨h3, h4⟩
          · left; exact h3
        simp only [ne_eq, h1, not_true_eq_false, if_false, h2]
        rw [List.filter_cons_of_pos (by simpa using hf), List.foldl_cons]
        exact ih _
    · have hf : ¬ (pod.Phase = PodRunning ∧
          (pod.Namespace ≠ "kube-system" ∨ isImportantSystemPod pod.Name = true)) :=
        fun hh => h1 hh.1
      simp only [ne_eq, h1, not_false_eq_true, if_true]
      rw [List.filter_cons_of_neg (by simpa using hf)]
      exact ih s

theorem isImportantSystemPod_iff (name : String) :
    isImportantSystemPod name = true ↔
      ∃ p ∈ importantPrefixes, ∃ rest : String, name = p ++ rest := by
  unfold isImportantSystemPod
  rw [List.any_eq_true]
  constructor
  · rintro ⟨p, hp, h⟩
    simp only [Bool.and_eq_true, decide_eq_true_eq] at h
    refine ⟨p, hp, ⟨name.toList.drop p.toList.length⟩, ?_⟩
    apply String.ext
    rw [String.data_append]
    show name.toList = p.toList ++ List.drop p.toList.length name.toList
    conv_lhs => rw [← List.take_append_drop p.toList.length name.toList]
    rw [h.2]
  · rintro ⟨p, hp, rest, rfl⟩
    refine ⟨p, hp, ?_⟩
    simp only [Bool.and_eq_true, decide_eq_true_eq]
    have e : (p ++ rest).toList = p.toList ++ rest.toList := String.data_append p rest
    rw [e]
    constructor
    · simp
    · simp

/-- Claim C17. In `Collect` the pods passed to `storePod` are, in order, exactly the
listed pods whose phase is Running and whose namespace is not `kube-system` or whose name
satisfies `isImportantSystemPod`; and `isImportantSystemPod name` holds iff `name` begins
with one of `coredns`, `metrics-server`, `aws-node`, `kube-proxy`: a name that contains
one of them elsewhere, or differs in case, is rejected. -/
theorem collector_Collect_filter (c : Collector) (w : World) (s : State) (pods : List Pod)
    (name : String) (hl : w.listPods s.calls c.namespace_ = Except.ok pods) :
    (∀ (l : List Pod) (st : State), Collector.Collect.loop c w l st =
      (l.filter (fun pod => pod.Phase = "Running" ∧
          (pod.Namespace ≠ "kube-system" ∨ isImportantSystemPod pod.Name = true))).foldl
        (fun st pod => (c.storePod w st pod).2) st) ∧
    (c.Collect w s).2 = (c.runAnalysis w
      ((pods.filter (fun pod => pod.Phase = "Running" ∧
          (pod.Namespace ≠ "kube-system" ∨ isImportantSystemPod pod.Name = true))).foldl
        (fun st pod => (c.storePod w st pod).2) s.next.next)).2 ∧
    (isImportantSystemPod name = true ↔
      ∃ p ∈ ["coredns", "metrics-server", "aws-node", "kube-proxy"],
        ∃ rest : String, name = p ++ rest) ∧
    isImportantSystemPod "coredns-5d78c9869d-abcde" = true ∧
    isImportantSystemPod "my-coredns" = false ∧
    isImportantSystemPod "CoreDNS-1" = false := by
  refine ⟨fun l st => Collect_loop_eq_foldl c w l st, ?_, isImportantSystemPod_iff name,
    by decide, by decide, by decide⟩
  unfold Collector.Collect
  rw [hl]
  simp only
  rw [Collect_loop_eq_foldl]
  rfl

/-- Witness of claim C17: a world that lists a running pod of namespace `default` and a
running pod `my-coredns` of namespace `kube-system`; only the first is stored. -/
theorem collector_Collect_filter_witness :
    (World.listing
        [{ Namespace := "default", Name := "web", Phase := "Running", Containers := [] },
         { Namespace := "kube-system", Name := "my-coredns", Phase := "Running",
           Containers := [] }]).listPods 0 Collector.default.namespace_
      = Except.ok
        [{ Namespace := "default", Name := "web", Phase := "Running", Containers := [] },
         { Namespace := "kube-system", Name := "my-coredns", Phase := "Running",
           Containers := [] }] ∧
    ((Collector.default.Collect
      (World.listing
        [{ Namespace := "default", Name := "web", Phase := "Running", Containers := [] },
         { Namespace := "kube-system", Name := "my-coredns", Phase := "Running",
           Containers := [] }])
      { store := Store.empty, calls := 0 }).2.store.pods.map (fun r => r.pod_name)) = ["web"] ∧
    (isImportantSystemPod "kube-proxy-x7" = true ↔
      ∃ p ∈ ["coredns", "metrics-server", "aws-node", "kube-proxy"],
        ∃ rest : String, "kube-proxy-x7" = p ++ rest) :=
  ⟨rfl, by decide, (collector_Collect_filter Collector.default
    (World.listing
        [{ Namespace := "default", Name := "web", Phase := "Running", Containers := [] },
         { Namespace := "kube-system", Name := "my-coredns", Phase := "Running",
           Containers := [] }])
    { store := Store.empty, calls := 0 }
    [{ Namespace := "default", Name := "web", Phase := "Running", Containers := [] },
     { Namespace := "kube-system", Name := "my-coredns", Phase := "Running",
       Containers := [] }] "kube-proxy-x7" rfl).2.2.1⟩

/-- Counterexample to claim C18 as stated. When listing the pods fails, `Collect` returns
the error `failed to list pods: ...`, not nil. -/
theorem collector_Collect_fails_when_listing_fails :
    (Collector.default.Collect
      { World.quiet with listPods := fun _ _ => Except.error "connection refused" }
      { store := Store.empty, calls := 0 }).1
      = some "failed to list pods: connection refused" := by
  decide

/-- Claim C18, amended. Whenever listing the pods succeeds, `Collect` returns nil, for
every outcome of the usage readings and of the database statements; when listing the pods
fails, `Collect` returns the error `failed to list pods: ...` and leaves the database as
it is. -/
theorem collector_Collect_returns (c : Collector) (w : World) (s : State) :
    (∀ pods, w.listPods s.calls c.namespace_ = Except.ok pods → (c.Collect w s).1 = none) ∧
    (∀ e, w.listPods s.calls c.namespace_ = Except.error e →
      (c.Collect w s).1 = some ("failed to list pods: " ++ e) ∧
      (c.Collect w s).2.store = s.store) := by
  constructor
  · intro pods hl
    unfold Collector.Collect
    rw [hl]
  · intro e hl
    unfold Collector.Collect
    rw [hl]
    exact ⟨rfl, rfl⟩

/-- Witness of the amended claim C18: a world that lists one running pod and in which
every database statement fails. -/
theorem collector_Collect_returns_witness :
    ({ World.listing
          [{ Namespace := "default", Name := "web", Phase := "Running", Containers := [] }]
        with dbError := fun _ => some "connection lost" } : World).listPods 0
        Collector.default.namespace_
      = Except.ok
          [{ Namespace := "default", Name := "web", Phase := "Running", Containers := [] }] ∧
    (Collector.default.Collect
      { World.listing
          [{ Namespace := "default", Name := "web", Phase := "Running", Containers := [] }]
        with dbError := fun _ => some "connection lost" }
      { store := Store.empty, calls := 0 }).1 = none :=
  ⟨rfl, (collector_Collect_returns Collector.default
    { World.listing
        [{ Namespace := "default", Name := "web", Phase := "Running", Containers := [] }]
      with dbError := fun _ => some "connection lost" }
    { store := Store.empty, calls := 0 }).1 _ rfl⟩


theorem storePod_loop_eq_foldl (c : Collector) (w : World) (podID : Int) (ns podName : String)
    (containers : List Container) (s : State) :
    Collector.storePod.loop c w podID ns podName containers s =
      containers.foldl (fun st container =>
        (c.storeContainer w st podID ns podName container).2) s := by
  induction containers generalizing s with
  | nil => rfl
  | cons container rest ih =>
    unfold Collector.storePod.loop
    rw [List.foldl_cons]
    exact ih _

theorem upsertContainer_metrics_snapshots (st : Store) (podID : Int) (n i : String)
    (t u : Int) : (st.upsertContainer podID n i t u).1.metrics_snapshots = st.metrics_snapshots := by
  unfold Store.upsertContainer
  simp only
  split <;> rfl

/-- The four ways in which `storeMetrics` ends: the three failures leave the database as
it is, and a success executes the insert of one snapshot, keyed by the container and by
the current time truncated to the minute. -/
theorem storeMetrics_cases (c : Collector) (w : World) (s : State) (containerID : Int)
    (ns podName containerName : String) :
    (∃ e, w.getPodMetrics s.calls ns podName = Except.error e ∧
      c.storeMetrics w s containerID ns podName containerName = (some e, s.next)) ∨
    (∃ pm, w.getPodMetrics s.calls ns podName = Except.ok pm ∧
      pm.Containers.find? (fun cm => cm.Name = containerName) = none ∧
      c.storeMetrics w s containerID ns podName containerName
        = (some "container not found in metrics", s.next)) ∨
    (∃ pm cm e, w.getPodMetrics s.calls ns podName = Except.ok pm ∧
      pm.Containers.find? (fun cm => cm.Name = containerName) = some cm ∧
      w.dbError (s.calls + 1) = some e ∧
      c.storeMetrics w s containerID ns podName containerName = (some e, s.next.next)) ∨
    (∃ pm cm, w.getPodMetrics s.calls ns podName = Except.ok pm ∧
      pm.Containers.find? (fun cm => cm.Name = containerName) = some cm ∧
      w.dbError (s.calls + 1) = none ∧
      c.storeMetrics w s containerID ns podName containerName =
        (none, { store := s.store.insertMetricsSnapshot
                    { container_id := containerID
                      timestamp := truncateMinute (w.now (s.calls + 1))
                      cpu_usage := (cm.Usage.cpuMilliValue : ℚ) / 1000
                      memory_usage := cm.Usage.memoryValue }
                 calls := s.calls + 2 })) := by
  unfold Collector.storeMetrics
  cases hg : w.getPodMetrics s.calls ns podName with
  | error e => exact Or.inl ⟨e, rfl, rfl⟩
  | ok pm =>
    right
    cases hf : pm.Containers.find? (fun cm => cm.Name = containerName) with
    | none =>
      left
      refine ⟨pm, rfl, hf, ?_⟩
      simp only [hf]
    | some cm =>
      right
      cases hd : w.dbError (s.calls + 1) with
      | some e =>
        left
        refine ⟨pm, cm, e, rfl, hf, rfl, ?_⟩
        simp only [hf, State.next, hd]
      | none =>
        right
        refine ⟨pm, cm, rfl, hf, rfl, ?_⟩
        simp only [hf, State.next, hd]


/-- After a successful upsert of the container, `storeContainer` has issued two calls
without touching the snapshots, ends with `storeMetrics` and returns nil. -/
theorem storeContainer_of_upsert_ok (c : Collector) (w : World) (s : State) (podID : Int)
    (ns podName : String) (container : Container) (h : w.dbError s.calls = none) :
    ∃ (s2 : State) (containerID : Int), s2.calls = s.calls + 2 ∧
      s2.store.metrics_snapshots = s.store.metrics_snapshots ∧
      c.storeContainer w s podID ns podName container =
        (none, (c.storeMetrics w s2 containerID ns podName container.Name).2) := by
  unfold Collector.storeContainer
  simp only [h]
  cases hd : w.dbError (s.calls + 1) with
  | some e =>
    exact ⟨_, _, rfl, upsertContainer_metrics_snapshots _ _ _ _ _ _, rfl⟩
  | none =>
    exact ⟨_, _, rfl, upsertContainer_metrics_snapshots _ _ _ _ _ _, rfl⟩

theorem upsertContainer_resource_requests (st : Store) (podID : Int) (n i : String)
    (t u : Int) :
    (st.upsertContainer podID n i t u).1.resource_requests = st.resource_requests := by
  unfold Store.upsertContainer
  simp only
  split <;> rfl

theorem insertMetricsSnapshot_resource_requests (st : Store) (row : MetricsSnapshotRow) :
    (st.insertMetricsSnapshot row).resource_requests = st.resource_requests := by
  unfold Store.insertMetricsSnapshot
  split <;> rfl

/-- The method `storeMetrics` leaves the table `resource_requests` as it is. -/
theorem storeMetrics_resource_requests (c : Collector) (w : World) (s : State)
    (containerID : Int) (ns podName containerName : String) :
    (c.storeMetrics w s containerID ns podName containerName).2.store.resource_requests
      = s.store.resource_requests := by
  rcases storeMetrics_cases c w s containerID ns podName containerName with
    ⟨e1, -, h1⟩ | ⟨pm, -, -, h1⟩ | ⟨pm, cm, e1, -, -, -, h1⟩ | ⟨pm, cm, -, -, -, h1⟩
  · rw [h1]; rfl
  · rw [h1]; rfl
  · rw [h1]; rfl
  · rw [h1]; exact insertMetricsSnapshot_resource_requests _ _

/-- The snapshots after `insertMetricsSnapshot` depend on the snapshots before it only. -/
theorem insertMetricsSnapshot_metrics_snapshots (st : Store) (row : MetricsSnapshotRow) :
    (st.insertMetricsSnapshot row).metrics_snapshots =
      (if st.metrics_snapshots.any
          (fun m => m.container_id = row.container_id ∧ m.timestamp = row.timestamp)
        then st.metrics_snapshots else st.metrics_snapshots ++ [row]) := by
  unfold Store.insertMetricsSnapshot
  split <;> rfl

/-- After a successful upsert of the container, `storeContainer` ends with `storeMetrics`
for the key the upsert returned, whatever the insert of the requests answered. -/
theorem storeContainer_of_upsert_ok_key (c : Collector) (w : World) (s : State) (podID : Int)
    (ns podName : String) (container : Container) (h : w.dbError s.calls = none) :
    ∃ s2 : State, s2.calls = s.calls + 2 ∧
      s2.store.metrics_snapshots = s.store.metrics_snapshots ∧
      (w.dbError (s.calls + 1) ≠ none → s2.store.resource_requests = s.store.resource_requests) ∧
      c.storeContainer w s podID ns podName container =
        (none, (c.storeMetrics w s2
          (s.store.upsertContainer podID container.Name container.Image
            (w.now s.calls) (w.now s.calls)).2 ns podName container.Name).2) := by
  unfold Collector.storeContainer
  simp only [h]
  cases hd : w.dbError (s.calls + 1) with
  | some e =>
    exact ⟨_, rfl, upsertContainer_metrics_snapshots _ _ _ _ _ _,
      fun _ => upsertContainer_resource_requests _ _ _ _ _ _, rfl⟩
  | none =>
    exact ⟨_, rfl, upsertContainer_metrics_snapshots _ _ _ _ _ _,
      fun hne => absurd rfl hne, rfl⟩

/-- Counterexample to claim C19 as stated. The insert of the requests fails (call 1) while
the usage reading and the insert of the snapshot succeed: `storeContainer` returns nil,
no request row is written, and the snapshot of the container is written. -/
theorem collector_storeContainer_snapshot_after_failed_request :
    World.requestInsertFails.dbError 0 = none ∧
    World.requestInsertFails.dbError 1 = some "deadlock" ∧
    (Collector.default.storeContainer World.requestInsertFails
      { store := Store.empty, calls := 0 } 1 "default" "web"
      { Name := "app", Image := "app:1", Requests := none, Limits := none }).1 = none ∧
    (Collector.default.storeContainer World.requestInsertFails
      { store := Store.empty, calls := 0 } 1 "default" "web"
      { Name := "app", Image := "app:1", Requests := none, Limits := none }
      ).2.store.resource_requests.length = 0 ∧
    ((Collector.default.storeContainer World.requestInsertFails
      { store := Store.empty, calls := 0 } 1 "default" "web"
      { Name := "app", Image := "app:1", Requests := none, Limits := none }
      ).2.store.metrics_snapshots.map
        (fun m => (m.container_id, m.timestamp, m.memory_usage))) = [(1, 0, 64000000)] ∧
    Store.empty.metrics_snapshots.length = 0 := by
  refine ⟨rfl, rfl, ?_, ?_, ?_, rfl⟩
  · decide
  · decide
  · decide

/-- Claim C19, amended. Once the pod upsert succeeds, `storePod` runs `storeContainer` for
every container of the pod, in order, each on the state the previous one left, whatever
the earlier ones returned, and then returns nil. `storeContainer` returns nil whenever the
container upsert succeeds, whatever the later calls answer. When the usage reading is
unavailable (the reading fails, or holds no entry for the container) or the snapshot
insert fails, it writes no snapshot. When the insert of the requests fails, it writes no
request row, and the snapshot is still attempted: whatever the insert of the requests
answered, a reading that holds the container followed by a successful snapshot insert
leaves the snapshots with the row of that reading added (unless its key is present). -/
theorem collector_storePod_isolates_failures (c : Collector) (w : World) (s : State)
    (pod : Pod) (podID : Int) (ns podName : String) (container : Container)
    (h : w.dbError s.calls = none) :
    ((c.storePod w s pod).1 = none ∧
      (c.storePod w s pod).2 = pod.Containers.foldl
        (fun st container => (c.storeContainer w st
          (s.store.upsertPod pod.Namespace pod.Name (w.now s.calls) (w.now s.calls)).2
          pod.Namespace pod.Name container).2)
        { store := (s.store.upsertPod pod.Namespace pod.Name (w.now s.calls)
            (w.now s.calls)).1, calls := s.calls + 1 }) ∧
    (c.storeContainer w s podID ns podName container).1 = none ∧
    (((∃ e, w.getPodMetrics (s.calls + 2) ns podName = Except.error e) ∨
      (∃ pm, w.getPodMetrics (s.calls + 2) ns podName = Except.ok pm ∧
        (pm.Containers.find? (fun cm => cm.Name = container.Name) = none ∨
          ∃ e, w.dbError (s.calls + 3) = some e))) →
      (c.storeContainer w s podID ns podName container).2.store.metrics_snapshots
        = s.store.metrics_snapshots) ∧
    ((∃ e, w.dbError (s.calls + 1) = some e) →
      (c.storeContainer w s podID ns podName container).2.store.resource_requests
        = s.store.resource_requests) ∧
    (∀ pm cm, w.getPodMetrics (s.calls + 2) ns podName = Except.ok pm →
      pm.Containers.find? (fun cm => cm.Name = container.Name) = some cm →
      w.dbError (s.calls + 3) = none →
      (c.storeContainer w s podID ns podName container).2.store.metrics_snapshots =
        (if s.store.metrics_snapshots.any
            (fun m => m.container_id = (s.store.upsertContainer podID container.Name
                container.Image (w.now s.calls) (w.now s.calls)).2 ∧
              m.timestamp = truncateMinute (w.now (s.calls + 3)))
          then s.store.metrics_snapshots
          else s.store.metrics_snapshots ++
            [{ container_id := (s.store.upsertContainer podID container.Name
                  container.Image (w.now s.calls) (w.now s.calls)).2
               timestamp := truncateMinute (w.now (s.calls + 3))
               cpu_usage := (cm.Usage.cpuMilliValue : ℚ) / 1000
               memory_usage := cm.Usage.memoryValue }])) := by
  refine ⟨?_, ?_, ?_, ?_, ?_⟩
  · unfold Collector.storePod
    rw [h]
    exact ⟨rfl, storePod_loop_eq_foldl _ _ _ _ _ _ _⟩
  · obtain ⟨s2, cid, -, -, e⟩ := storeContainer_of_upsert_ok c w s podID ns podName container h
    rw [e]
  · intro hu
    obtain ⟨s2, cid, hc, hm, e⟩ := storeContainer_of_upsert_ok c w s podID ns podName container h
    rw [e, ← hm]
    rcases storeMetrics_cases c w s2 cid ns podName container.Name with
      ⟨e1, -, h1⟩ | ⟨pm, -, -, h1⟩ | ⟨pm, cm, e1, -, -, -, h1⟩ | ⟨pm, cm, hg, hf, hd, -⟩
    · rw [h1]; rfl
    · rw [h1]; rfl
    · rw [h1]; rfl
    · exfalso
      rw [hc] at hg hd
      rcases hu with ⟨e1, he⟩ | ⟨pm2, hg2, hn | ⟨e1, he⟩⟩
      · rw [he] at hg; cases hg
      · rw [hg2] at hg
        cases hg
        rw [hn] at hf
        cases hf
      · rw [he] at hd; cases hd
  · rintro ⟨e1, he⟩
    obtain ⟨s2, -, -, hr, e⟩ :=
      storeContainer_of_upsert_ok_key c w s podID ns podName container h
    rw [e, storeMetrics_resource_requests]
    exact hr (by rw [he]; exact fun hx => Option.noConfusion hx)
  · intro pm cm hg hf hd
    obtain ⟨s2, hc, hm, -, e⟩ :=
      storeContainer_of_upsert_ok_key c w s podID ns podName container h
    rw [e]
    rcases storeMetrics_cases c w s2 (s.store.upsertContainer podID container.Name
        container.Image (w.now s.calls) (w.now s.calls)).2 ns podName container.Name with
      ⟨e1, hg1, -⟩ | ⟨pm1, hg1, hf1, -⟩ | ⟨pm1, cm1, e1, -, -, hd1, -⟩ |
      ⟨pm1, cm1, hg1, hf1, -, h1⟩
    · rw [hc, hg] at hg1; cases hg1
    · rw [hc, hg] at hg1
      cases hg1
      rw [hf] at hf1
      cases hf1
    · rw [hc, hd] at hd1; cases hd1
    · rw [hc, hg] at hg1
      cases hg1
      rw [hf] at hf1
      cases hf1
      rw [h1, insertMetricsSnapshot_metrics_snapshots, hm, hc]


/-- Witness of the amended claim C19. In the first world the upsert of the first container
fails (call 1) and the usage reading is unavailable: `storePod` still returns nil and has
stored the second container, and `storeContainer`, for which call 1 is the insert of the
requests, returns nil and writes neither a request row nor a snapshot. In the second world
the insert of the requests fails and the reading succeeds: the snapshot is written. -/
theorem collector_storePod_isolates_failures_witness :
    ({ World.quiet with dbError := fun n => if n = 1 then some "deadlock" else none }
      : World).dbError 0 = none ∧
    (∃ e, ({ World.quiet with dbError := fun n => if n = 1 then some "deadlock" else none }
      : World).getPodMetrics (0 + 2) "default" "web" = Except.error e) ∧
    (Collector.default.storePod
      { World.quiet with dbError := fun n => if n = 1 then some "deadlock" else none }
      { store := Store.empty, calls := 0 }
      { Namespace := "default", Name := "web", Phase := "Running",
        Containers := [{ Name := "app", Image := "app:1", Requests := none, Limits := none },
          { Name := "sidecar", Image := "proxy:2", Requests := none, Limits := none }] }).1
      = none ∧
    ((Collector.default.storePod
      { World.quiet with dbError := fun n => if n = 1 then some "deadlock" else none }
      { store := Store.empty, calls := 0 }
      { Namespace := "default", Name := "web", Phase := "Running",
        Containers := [{ Name := "app", Image := "app:1", Requests := none, Limits := none },
          { Name := "sidecar", Image := "proxy:2", Requests := none, Limits := none }]
      }).2.store.containers.map (fun r => r.container_name)) = ["sidecar"] ∧
    (Collector.default.storeContainer
      { World.quiet with dbError := fun n => if n = 1 then some "deadlock" else none }
      { store := Store.empty, calls := 0 } 1 "default" "web"
      { Name := "app", Image := "app:1", Requests := none, Limits := none }).1 = none ∧
    (Collector.default.storeContainer
      { World.quiet with dbError := fun n => if n = 1 then some "deadlock" else none }
      { store := Store.empty, calls := 0 } 1 "default" "web"
      { Name := "app", Image := "app:1", Requests := none, Limits := none }
      ).2.store.metrics_snapshots = [] ∧
    (Collector.default.storeContainer
      { World.quiet with dbError := fun n => if n = 1 then some "deadlock" else none }
      { store := Store.empty, calls := 0 } 1 "default" "web"
      { Name := "app", Image := "app:1", Requests := none, Limits := none }
      ).2.store.resource_requests = [] ∧
    World.requestInsertFails.dbError 0 = none ∧
    World.requestInsertFails.dbError (0 + 1) = some "deadlock" ∧
    (Collector.default.storeContainer World.requestInsertFails
      { store := Store.empty, calls := 0 } 1 "default" "web"
      { Name := "app", Image := "app:1", Requests := none, Limits := none }
      ).2.store.metrics_snapshots =
      [{ container_id := 1, timestamp := 0, cpu_usage := ((252 : Int) : ℚ) / 1000,
         memory_usage := 64000000 }] := by
  have t := collector_storePod_isolates_failures Collector.default
    { World.quiet with dbError := fun n => if n = 1 then some "deadlock" else none }
    { store := Store.empty, calls := 0 }
    { Namespace := "default", Name := "web", Phase := "Running",
      Containers := [{ Name := "app", Image := "app:1", Requests := none, Limits := none },
        { Name := "sidecar", Image := "proxy:2", Requests := none, Limits := none }] }
    1 "default" "web" { Name := "app", Image := "app:1", Requests := none, Limits := none } rfl
  have t2 := (collector_storePod_isolates_failures Collector.default
    World.requestInsertFails { store := Store.empty, calls := 0 }
    { Namespace := "default", Name := "web", Phase := "Running", Containers := [] }
    1 "default" "web" { Name := "app", Image := "app:1", Requests := none, Limits := none }
    rfl).2.2.2.2
    { Containers := [{ Name := "app",
                       Usage := { cpuMilliValue := 252, memoryValue := 64000000 } }] }
    { Name := "app", Usage := { cpuMilliValue := 252, memoryValue := 64000000 } }
    rfl rfl rfl
  exact ⟨rfl, ⟨_, rfl⟩, t.1.1, by decide, t.2.1, t.2.2.1 (Or.inl ⟨_, rfl⟩),
    t.2.2.2.1 ⟨_, rfl⟩, rfl, rfl, t2⟩

theorem insertMetricsSnapshot_of_key (st : Store) (row : MetricsSnapshotRow)
    (h : ∃ m ∈ st.metrics_snapshots,
      m.container_id = row.container_id ∧ m.timestamp = row.timestamp) :
    st.insertMetricsSnapshot row = st := by
  unfold Store.insertMetricsSnapshot
  rw [if_pos]
  rw [List.any_eq_true]
  obtain ⟨m, hm, hk⟩ := h
  exact ⟨m, hm, by simpa using hk⟩

theorem insertMetricsSnapshot_of_fresh (st : Store) (row : MetricsSnapshotRow)
    (h : ∀ m ∈ st.metrics_snapshots,
      ¬ (m.container_id = row.container_id ∧ m.timestamp = row.timestamp)) :
    (st.insertMetricsSnapshot row).metrics_snapshots = st.metrics_snapshots ++ [row] := by
  unfold Store.insertMetricsSnapshot
  rw [if_neg]
  rw [List.any_eq_true]
  rintro ⟨m, hm, hk⟩
  exact h m hm (by simpa using hk)

/-- With a snapshot of the container in the current minute, `storeMetrics` leaves the
database as it is. -/
theorem storeMetrics_store_of_key (c : Collector) (w : World) (s : State) (containerID : Int)
    (ns podName containerName : String) (minute : Int)
    (hclock : ∀ n, truncateMinute (w.now n) = minute)
    (h : ∃ m ∈ s.store.metrics_snapshots, m.container_id = containerID ∧ m.timestamp = minute) :
    (c.storeMetrics w s containerID ns podName containerName).2.store = s.store := by
  rcases storeMetrics_cases c w s containerID ns podName containerName with
    ⟨e1, -, h1⟩ | ⟨pm, -, -, h1⟩ | ⟨pm, cm, e1, -, -, -, h1⟩ | ⟨pm, cm, -, -, -, h1⟩
  · rw [h1]; rfl
  · rw [h1]; rfl
  · rw [h1]; rfl
  · rw [h1, hclock]
    exact insertMetricsSnapshot_of_key _ _ h

theorem iterate_storeMetrics_store_of_key (c : Collector) (w : World) (containerID : Int)
    (ns podName containerName : String) (minute : Int)
    (hclock : ∀ n, truncateMinute (w.now n) = minute) (k : Nat) (s : State)
    (h : ∃ m ∈ s.store.metrics_snapshots, m.container_id = containerID ∧ m.timestamp = minute) :
    ((fun st => (c.storeMetrics w st containerID ns podName containerName).2)^[k] s).store
      = s.store := by
  induction k generalizing s with
  | zero => rfl
  | succ k ih =>
    rw [Function.iterate_succ_apply]
    have e := storeMetrics_store_of_key c w s containerID ns podName containerName minute
      hclock h
    rw [ih _ (by rw [e]; exact h), e]


/-- Claim C20. Snapshot ingestion is idempotent per (container, minute): `storeMetrics`
keys the snapshot by the container id and the current time truncated to the minute; an
insert whose key exists leaves the database as it is and is not an error; so, while the
clock stays in one minute, after a first successful ingestion and any number `k` of further
ingestions for the container exactly one snapshot with that key exists, and it holds the
values of the first reading. -/
theorem collector_storeMetrics_idempotent (c : Collector) (w : World) (s : State)
    (containerID : Int) (ns podName containerName : String) (minute : Int) (k : Nat)
    (hclock : ∀ n, truncateMinute (w.now n) = minute) :
    (∀ (st : Store) (row : MetricsSnapshotRow),
      (∃ m ∈ st.metrics_snapshots,
        m.container_id = row.container_id ∧ m.timestamp = row.timestamp) →
      st.insertMetricsSnapshot row = st) ∧
    ((c.storeMetrics w s containerID ns podName containerName).2.store = s.store ∨
      ∃ cpu mem, (c.storeMetrics w s containerID ns podName containerName).2.store =
        s.store.insertMetricsSnapshot
          { container_id := containerID, timestamp := minute,
            cpu_usage := cpu, memory_usage := mem }) ∧
    (∀ pm cm, w.getPodMetrics s.calls ns podName = Except.ok pm →
      pm.Containers.find? (fun cm => cm.Name = containerName) = some cm →
      w.dbError (s.calls + 1) = none →
      (c.storeMetrics w s containerID ns podName containerName).1 = none) ∧
    ((∃ m ∈ s.store.metrics_snapshots, m.container_id = containerID ∧ m.timestamp = minute) →
      ((fun st => (c.storeMetrics w st containerID ns podName containerName).2)^[k] s).store
        = s.store) ∧
    ((∀ m ∈ s.store.metrics_snapshots,
        ¬ (m.container_id = containerID ∧ m.timestamp = minute)) →
      (c.storeMetrics w s containerID ns podName containerName).1 = none →
      ∃ pm cm, w.getPodMetrics s.calls ns podName = Except.ok pm ∧
        pm.Containers.find? (fun cm => cm.Name = containerName) = some cm ∧
        ((fun st => (c.storeMetrics w st containerID ns podName containerName).2)^[k]
            (c.storeMetrics w s containerID ns podName containerName).2
          ).store.metrics_snapshots.filter
            (fun m => m.container_id = containerID ∧ m.timestamp = minute)
          = [{ container_id := containerID, timestamp := minute,
               cpu_usage := (cm.Usage.cpuMilliValue : ℚ) / 1000,
               memory_usage := cm.Usage.memoryValue }]) := by
  refine ⟨insertMetricsSnapshot_of_key, ?_, ?_, ?_, ?_⟩
  · rcases storeMetrics_cases c w s containerID ns podName containerName with
      ⟨e1, -, h1⟩ | ⟨pm, -, -, h1⟩ | ⟨pm, cm, e1, -, -, -, h1⟩ | ⟨pm, cm, -, -, -, h1⟩
    · left; rw [h1]; rfl
    · left; rw [h1]; rfl
    · left; rw [h1]; rfl
    · right; rw [h1, hclock]; exact ⟨_, _, rfl⟩
  · intro pm cm hg hf hd
    rcases storeMetrics_cases c w s containerID ns podName containerName with
      ⟨e1, hg1, -⟩ | ⟨pm1, hg1, hf1, -⟩ | ⟨pm1, cm1, e1, -, -, hd1, -⟩ | ⟨pm1, cm1, -, -, -, h1⟩
    · rw [hg] at hg1; cases hg1
    · rw [hg] at hg1; cases hg1; rw [hf] at hf1; cases hf1
    · rw [hd] at hd1; cases hd1
    · rw [h1]
  · exact iterate_storeMetrics_store_of_key c w containerID ns podName containerName minute
      hclock k s
  · intro hfresh hnil
    rcases storeMetrics_cases c w s containerID ns podName containerName with
      ⟨e1, -, h1⟩ | ⟨pm, -, -, h1⟩ | ⟨pm, cm, e1, -, -, -, h1⟩ | ⟨pm, cm, hg, hf, -, h1⟩
    · rw [h1] at hnil; cases hnil
    · rw [h1] at hnil; cases hnil
    · rw [h1] at hnil; cases hnil
    · refine ⟨pm, cm, hg, hf, ?_⟩
      rw [h1, hclock]
      have hins := insertMetricsSnapshot_of_fresh s.store
        { container_id := containerID, timestamp := minute,
          cpu_usage := (cm.Usage.cpuMilliValue : ℚ) / 1000,
          memory_usage := cm.Usage.memoryValue } hfresh
      rw [iterate_storeMetrics_store_of_key c w containerID ns podName containerName minute
        hclock k _ (by
          show ∃ m ∈ (s.store.insertMetricsSnapshot _).metrics_snapshots, _
          rw [hins]
          exact ⟨_, List.mem_append_right _ (List.mem_singleton_self _), rfl, rfl⟩)]
      show List.filter _ (s.store.insertMetricsSnapshot _).metrics_snapshots = _
      rw [hins, List.filter_append]
      have hnone : s.store.metrics_snapshots.filter
          (fun m => m.container_id = containerID ∧ m.timestamp = minute) = [] := by
        rw [List.filter_eq_nil_iff]
        intro m hm
        simpa using hfresh m hm
      rw [hnone]
      simp

/-- Witness of claim C20: with the clock at instant 0, four ingestions for container 1
into the empty database, with readings of 250, 252, 254 and 256 millicores, leave the one
snapshot of the first reading. -/
theorem collector_storeMetrics_idempotent_witness :
    (∀ n, truncateMinute (World.metered.now n) = 0) ∧
    (∀ m ∈ Store.empty.metrics_snapshots, ¬ (m.container_id = 1 ∧ m.timestamp = 0)) ∧
    (Collector.default.storeMetrics World.metered { store := Store.empty, calls := 0 }
      1 "default" "web" "app").1 = none ∧
    ∃ pm cm, World.metered.getPodMetrics 0 "default" "web" = Except.ok pm ∧
      pm.Containers.find? (fun cm => cm.Name = "app") = some cm ∧
      cm.Usage.cpuMilliValue = 250 ∧
      ((fun st => (Collector.default.storeMetrics World.metered st 1 "default" "web" "app").2)^[3]
          (Collector.default.storeMetrics World.metered { store := Store.empty, calls := 0 }
            1 "default" "web" "app").2
        ).store.metrics_snapshots.filter (fun m => m.container_id = 1 ∧ m.timestamp = 0)
        = [{ container_id := 1, timestamp := 0,
             cpu_usage := (cm.Usage.cpuMilliValue : ℚ) / 1000,
             memory_usage := cm.Usage.memoryValue }] := by
  have hclock : ∀ n, truncateMinute (World.metered.now n) = 0 := by
    intro n
    show truncateMinute 0 = 0
    decide
  have hfresh : ∀ m ∈ Store.empty.metrics_snapshots,
      ¬ (m.container_id = 1 ∧ m.timestamp = 0) := by
    intro m hm
    simp [Store.empty] at hm
  have hnil : (Collector.default.storeMetrics World.metered { store := Store.empty, calls := 0 }
      1 "default" "web" "app").1 = none := by decide
  obtain ⟨pm, cm, hg, hf, he⟩ := (collector_storeMetrics_idempotent Collector.default
    World.metered { store := Store.empty, calls := 0 } 1 "default" "web" "app" 0 3
    hclock).2.2.2.2 hfresh hnil
  refine ⟨hclock, hfresh, hnil, pm, cm, hg, hf, ?_, he⟩
  have hg2 : World.metered.getPodMetrics 0 "default" "web" = Except.ok
      { Containers := [{ Name := "app",
                         Usage := { cpuMilliValue := 250, memoryValue := 64000000 } }] } := rfl
  rw [hg2] at hg
  cases hg
  simp at hf
  rw [← hf]


/-- On a window that holds a snapshot, after a successful query: `Collector.analyzeContainer`
runs the computation `analyzeContainer` on the scanned rows and on the latest request (on
no request when it cannot be read), then inserts the analysis and the recommendation; it
stops at the first insert that fails. -/
theorem Collector.analyzeContainer_of_window (c : Collector) (w : World) (s : State)
    (containerID : Int) (ns podName containerName : String)
    (hq : w.dbError s.calls = none)
    (hrows : w.scanRows s.calls
      (s.store.selectMetrics containerID (w.now s.calls - 7 * 24 * Hour)) ≠ []) :
    ∃ a, KubeOptimizer.analyzeContainer w.ovf c.config
        (w.scanRows s.calls (s.store.selectMetrics containerID (w.now s.calls - 7 * 24 * Hour)))
        (match w.dbError (s.calls + 1) with
          | some _ => none
          | none => s.store.selectLatestRequest containerID) = Except.ok a ∧
      (∀ e, w.dbError (s.calls + 2) = some e →
        c.analyzeContainer w s containerID ns podName containerName
          = (some e, { store := s.store, calls := s.calls + 3 })) ∧
      (w.dbError (s.calls + 2) = none →
        (c.analyzeContainer w s containerID ns podName containerName).2.store.analyses
          = s.store.analyses ++
            [{ id := s.store.analyses_id_seq + 1, container_id := containerID,
               analyzed_at := w.now (s.calls + 2),
               window_start := w.now s.calls - 7 * 24 * Hour, window_end := w.now s.calls,
               values := a }] ∧
        (c.analyzeContainer w s containerID ns podName containerName).1
          = w.dbError (s.calls + 3)) := by
  have hlen : (w.scanRows s.calls
      (s.store.selectMetrics containerID (w.now s.calls - 7 * 24 * Hour))).length ≠ 0 :=
    fun h0 => hrows (List.length_eq_zero.mp h0)
  obtain ⟨a, ha, -⟩ := analyzeContainer_fields w.ovf c.config _
    (match w.dbError (s.calls + 1) with
      | some _ => none
      | none => s.store.selectLatestRequest containerID) hrows
  refine ⟨a, ha, ?_, ?_⟩
  · intro e he
    unfold Collector.analyzeContainer
    simp only [hq, hlen, if_false, State.next, ha, he]
  · intro hn
    unfold Collector.analyzeContainer
    simp only [hq, hlen, if_false, State.next, ha, hn]
    cases h3 : w.dbError (s.calls + 3) with
    | some e => exact ⟨rfl, rfl⟩
    | none => exact ⟨rfl, rfl⟩


/-- Claim C14. When no resource request record can be read for the container (the query
fails, or returns no row), `analyzeContainer` does not fail: it continues with current
CPU = 0.1 core and current memory = 128 MiB (134217728 bytes); when a record is read, it
uses that record's CPU and memory request unchanged (a NULL column reads as 0). Stated
for the computation, and for the Analysis row that `Collector.analyzeContainer` writes
after a successful query on a window that holds a snapshot. -/
theorem analyzeContainer_current_request (ovf : Int) (cfg : AnalysisConfig)
    (rows : List (ℚ × Int)) (r : ℚ × Int) (c : Collector) (w : World) (s : State)
    (containerID : Int) (ns podName containerName : String) (h : rows ≠ []) :
    (∃ a, analyzeContainer ovf cfg rows none = Except.ok a ∧
      a.currentCPU = 0.1 ∧ a.currentMem = 134217728) ∧
    (∃ a, analyzeContainer ovf cfg rows (some r) = Except.ok a ∧
      a.currentCPU = r.1 ∧ a.currentMem = r.2) ∧
    (w.dbError s.calls = none →
      w.scanRows s.calls
        (s.store.selectMetrics containerID (w.now s.calls - 7 * 24 * Hour)) ≠ [] →
      w.dbError (s.calls + 2) = none →
      ∃ a, (c.analyzeContainer w s containerID ns podName containerName).2.store.analyses
          = s.store.analyses ++
            [{ id := s.store.analyses_id_seq + 1, container_id := containerID,
               analyzed_at := w.now (s.calls + 2),
               window_start := w.now s.calls - 7 * 24 * Hour, window_end := w.now s.calls,
               values := a }] ∧
        (c.analyzeContainer w s containerID ns podName containerName).1
          = w.dbError (s.calls + 3) ∧
        (((∃ e, w.dbError (s.calls + 1) = some e) ∨
            s.store.selectLatestRequest containerID = none) →
          a.currentCPU = 0.1 ∧ a.currentMem = 134217728) ∧
        (w.dbError (s.calls + 1) = none →
          s.store.selectLatestRequest containerID = some r →
          a.currentCPU = r.1 ∧ a.currentMem = r.2)) := by
  obtain ⟨a, ha, -, -, -, c1, c2, -⟩ := analyzeContainer_fields ovf cfg rows none h
  obtain ⟨b, hb, -, -, -, d1, d2, -⟩ := analyzeContainer_fields ovf cfg rows (some r) h
  refine ⟨⟨a, ha, c1, c2⟩, ⟨b, hb, d1, d2⟩, fun hq hrows hins => ?_⟩
  obtain ⟨x, hx, -, hw⟩ := Collector.analyzeContainer_of_window c w s containerID ns podName
    containerName hq hrows
  obtain ⟨y, hy, -, -, -, y1, y2, -⟩ := analyzeContainer_fields w.ovf c.config _
    (match w.dbError (s.calls + 1) with
      | some _ => none
      | none => s.store.selectLatestRequest containerID) hrows
  rw [hx] at hy
  cases hy
  refine ⟨x, (hw hins).1, (hw hins).2, ?_, ?_⟩
  · rintro (⟨e, he⟩ | hnone)
    · rw [he] at y1 y2
      exact ⟨y1, y2⟩
    · cases hd : w.dbError (s.calls + 1) with
      | some e =>
        rw [hd] at y1 y2
        exact ⟨y1, y2⟩
      | none =>
        rw [hd, hnone] at y1 y2
        exact ⟨y1, y2⟩
  · intro hd hsome
    rw [hd, hsome] at y1 y2
    exact ⟨y1, y2⟩


/-- Witness of claim C14: the computation on one sample, and the collector on a database
that holds one snapshot of container 1 and no resource request. -/
theorem analyzeContainer_current_request_witness :
    ([(5, 100000000)] : List (ℚ × Int)) ≠ [] ∧
    (∃ a, analyzeContainer 0 { CPUCostPerCore := 30, MemoryCostPerGB := 10 }
        [(5, 100000000)] none = Except.ok a ∧
      a.currentCPU = 0.1 ∧ a.currentMem = 134217728) ∧
    (∃ a, analyzeContainer 0 { CPUCostPerCore := 30, MemoryCostPerGB := 10 }
        [(5, 100000000)] (some (1 / 4, 67108864)) = Except.ok a ∧
      a.currentCPU = ((1 / 4, 67108864) : ℚ × Int).1 ∧
      a.currentMem = ((1 / 4, 67108864) : ℚ × Int).2) ∧
    World.quiet.dbError 0 = none ∧
    World.quiet.scanRows 0
      (Store.oneSnapshot.selectMetrics 1 (World.quiet.now 0 - 7 * 24 * Hour)) ≠ [] ∧
    World.quiet.dbError (0 + 2) = none ∧
    Store.oneSnapshot.selectLatestRequest 1 = none ∧
    ∃ a, (Collector.default.analyzeContainer World.quiet
        { store := Store.oneSnapshot, calls := 0 } 1 "default" "web" "app").2.store.analyses
        = [{ id := 1, container_id := 1, analyzed_at := 0,
             window_start := 0 - 7 * 24 * Hour, window_end := 0, values := a }] ∧
      (Collector.default.analyzeContainer World.quiet
        { store := Store.oneSnapshot, calls := 0 } 1 "default" "web" "app").1 = none ∧
      a.currentCPU = 0.1 ∧ a.currentMem = 134217728 := by
  have hrows : World.quiet.scanRows 0
      (Store.oneSnapshot.selectMetrics 1 (World.quiet.now 0 - 7 * 24 * Hour)) ≠ [] := by
    simp [World.quiet, World.scanRows, Store.selectMetrics, Store.oneSnapshot, Store.empty,
      Hour, Minute, List.enum]
  have hreq : Store.oneSnapshot.selectLatestRequest 1 = none := rfl
  have t := analyzeContainer_current_request 0 { CPUCostPerCore := 30, MemoryCostPerGB := 10 }
    [(5, 100000000)] (1 / 4, 67108864) Collector.default World.quiet
    { store := Store.oneSnapshot, calls := 0 } 1 "default" "web" "app" (by simp)
  obtain ⟨a, h1, h2, h3, -⟩ := t.2.2 rfl hrows rfl
  exact ⟨by simp, t.1, t.2.1, rfl, hrows, rfl, hreq, a, h1, h2, h3 (Or.inr hreq)⟩


/-! ## Patch rendering -/

theorem tdiv_mebi_bounds {m : Int} (h : InInt64 m) :
    -2 ^ 43 ≤ m.tdiv (1024 * 1024) ∧ m.tdiv (1024 * 1024) ≤ 2 ^ 43 := by
  unfold InInt64 at h
  rcases le_or_lt 0 m with hm | hm
  · rw [Int.tdiv_eq_ediv hm (by norm_num)]
    omega
  · have e : m.tdiv (1024 * 1024) = -((-m) / (1024 * 1024)) := by
      rw [← Int.tdiv_eq_ediv (by omega) (by norm_num), Int.neg_tdiv, neg_neg]
    rw [e]
    omega

/-- The memory limit in MiB is the memory request in MiB times 1.2, truncated. -/
theorem memLimit_eq_truncQ {m : Int} (h : InInt64 m) :
    (wrapInt64 (m.tdiv (1024 * 1024) * 120)).tdiv 100
      = truncQ ((m.tdiv (1024 * 1024) : ℚ) * 1.2) := by
  have hb := tdiv_mebi_bounds h
  have hw : wrapInt64 (m.tdiv (1024 * 1024) * 120) = m.tdiv (1024 * 1024) * 120 := by
    apply wrapInt64_of_inInt64
    unfold InInt64
    constructor <;> omega
  rw [hw]
  have hq : ((m.tdiv (1024 * 1024) : Int) : ℚ) * 1.2
      = ((m.tdiv (1024 * 1024) * 120 : Int) : ℚ) / ((100 : Nat) : ℚ) := by
    push_cast; ring
  rw [hq, truncQ_intCast_div_natCast]
  rfl

theorem roundHalfEven_sub_le (q : ℚ) : |(roundHalfEven q : ℚ) - q| ≤ 1 / 2 := by
  have h1 := Int.floor_le q
  have h2 := Int.lt_floor_add_one q
  unfold roundHalfEven
  rw [abs_le]
  split_ifs with a b c
  · constructor <;> linarith
  · push_cast; constructor <;> linarith
  · have hb : q - ⌊q⌋ = 1 / 2 := le_antisymm (not_lt.mp b) (not_lt.mp a)
    constructor <;> linarith
  · have hb : q - ⌊q⌋ = 1 / 2 := le_antisymm (not_lt.mp b) (not_lt.mp a)
    push_cast; constructor <;> linarith

/-- Counterexample to claim C21 as stated. For a recommendation of 0.01451 core and 32 MiB
the rendered requests are `15m` and `32Mi`, and the rendered limits are `17m` and `38Mi`:
neither limit is 1.2 times the rendered request (18 and 38.4). -/
theorem generateResourcePatch_limit_not_scaled_request :
    (generateResourcePatch Recommendation.example).requestsCPU = "15m" ∧
    (generateResourcePatch Recommendation.example).limitsCPU = "17m" ∧
    (17 : ℚ) ≠ 1.2 * 15 ∧
    (generateResourcePatch Recommendation.example).requestsMemory = "32Mi" ∧
    (generateResourcePatch Recommendation.example).limitsMemory = "38Mi" ∧
    (38 : ℚ) ≠ 1.2 * 32 := by
  have f1 : ⌊(1451 / 100 : ℚ)⌋ = 14 := by
    rw [Int.floor_eq_iff]; norm_num
  have f2 : ⌊(4353 / 250 : ℚ)⌋ = 17 := by
    rw [Int.floor_eq_iff]; norm_num
  have r1 : roundHalfEven |(1451 / 100000 : ℚ) * 1000| = 15 := by
    have e : |(1451 / 100000 : ℚ) * 1000| = 1451 / 100 := by
      rw [abs_of_nonneg (by norm_num)]; norm_num
    rw [e]
    unfold roundHalfEven
    rw [f1]
    norm_num
  have r2 : roundHalfEven |(1451 / 100000 : ℚ) * 1000 * 1.2| = 17 := by
    have e : |(1451 / 100000 : ℚ) * 1000 * 1.2| = 4353 / 250 := by
      rw [abs_of_nonneg (by norm_num)]; norm_num
    rw [e]
    unfold roundHalfEven
    rw [f2]
    norm_num
  have n1 : ¬ ((1451 / 100000 : ℚ) * 1000 < 0) := by norm_num
  have n2 : ¬ ((1451 / 100000 : ℚ) * 1000 * 1.2 < 0) := by norm_num
  refine ⟨?_, ?_, by norm_num, by decide, by decide, by norm_num⟩
  · show formatFloat0 ((1451 / 100000 : ℚ) * 1000) ++ "m" = "15m"
    unfold formatFloat0
    rw [if_neg n1, r1]
    decide
  · show formatFloat0 ((1451 / 100000 : ℚ) * 1000 * 1.2) ++ "m" = "17m"
    unfold formatFloat0
    rw [if_neg n2, r2]
    decide


/-- Claim C21, amended. `generateResourcePatch` is a function of the pod name, namespace,
container name, recommended CPU and recommended memory of the Recommendation. It names
that pod, namespace and container; it renders the CPU request as RecommendedCPU × 1000
rounded to whole millicores (suffix `m`) and the memory request as RecommendedMemory /
2^20 in whole MiB (integer division, suffix `Mi`); it renders the CPU limit as
RecommendedCPU × 1000 × 1.2 rounded to whole millicores, and the memory limit as 1.2 times
the request MiB truncated to a whole number. -/
theorem generateResourcePatch_renders (rec rec2 : Recommendation)
    (h : InInt64 rec.RecommendedMemory)
    (hname : rec2.PodName = rec.PodName) (hns : rec2.Namespace = rec.Namespace)
    (hcn : rec2.ContainerName = rec.ContainerName)
    (hcpu : rec2.RecommendedCPU = rec.RecommendedCPU)
    (hmem : rec2.RecommendedMemory = rec.RecommendedMemory) :
    generateResourcePatch rec2 = generateResourcePatch rec ∧
    (generateResourcePatch rec).apiVersion = "v1" ∧
    (generateResourcePatch rec).kind = "Pod" ∧
    (generateResourcePatch rec).name = rec.PodName ∧
    (generateResourcePatch rec).namespace_ = rec.Namespace ∧
    (generateResourcePatch rec).containerName = rec.ContainerName ∧
    (generateResourcePatch rec).requestsCPU
      = formatFloat0 (rec.RecommendedCPU * 1000) ++ "m" ∧
    (generateResourcePatch rec).requestsMemory
      = formatInt (rec.RecommendedMemory.tdiv (1024 * 1024)) ++ "Mi" ∧
    (generateResourcePatch rec).limitsCPU
      = formatFloat0 (rec.RecommendedCPU * 1000 * 1.2) ++ "m" ∧
    (generateResourcePatch rec).limitsMemory
      = formatInt (truncQ ((rec.RecommendedMemory.tdiv (1024 * 1024) : ℚ) * 1.2)) ++ "Mi" ∧
    (∀ q : ℚ,
      formatFloat0 q = (if q < 0 then "-" else "") ++ toString (roundHalfEven (abs q)).toNat ∧
      abs ((roundHalfEven (abs q) : ℚ) - abs q) ≤ 1 / 2) := by
  refine ⟨?_, rfl, rfl, rfl, rfl, rfl, rfl, rfl, rfl, ?_, fun q => ⟨rfl, roundHalfEven_sub_le _⟩⟩
  · unfold generateResourcePatch
    rw [hname, hns, hcn, hcpu, hmem]
  · show formatInt ((wrapInt64 (rec.RecommendedMemory.tdiv (1024 * 1024) * 120)).tdiv 100)
      ++ "Mi" = _
    rw [memLimit_eq_truncQ h]

/-- Witness of the amended claim C21 at a recommendation of 0.01451 core and 32 MiB, and
at a second recommendation for the same container that differs in the other fields. -/
theorem generateResourcePatch_renders_witness :
    InInt64 Recommendation.example.RecommendedMemory ∧
    generateResourcePatch { Recommendation.example with
        ID := 7, Status := "optimal", Applied := true, MonthlySavings := 3 }
      = generateResourcePatch Recommendation.example ∧
    (generateResourcePatch Recommendation.example).name = "web" ∧
    (generateResourcePatch Recommendation.example).requestsMemory = "32Mi" ∧
    (generateResourcePatch Recommendation.example).limitsMemory
      = formatInt (truncQ ((Recommendation.example.RecommendedMemory.tdiv (1024 * 1024) : ℚ)
          * 1.2)) ++ "Mi" := by
  have t := generateResourcePatch_renders Recommendation.example
    { Recommendation.example with
        ID := 7, Status := "optimal", Applied := true, MonthlySavings := 3 }
    (by decide) rfl rfl rfl rfl rfl
  exact ⟨by decide, t.1, t.2.2.2.1, by decide, t.2.2.2.2.2.2.2.2.2.1⟩


/-! ## Further properties of the statistics -/

theorem floor_mul_95_lt {n : Nat} (hn : 1 ≤ n) : ⌊(n : ℚ) * 0.95⌋₊ < n := by
  rw [floor_mul_95]; omega

theorem floor_mul_99_lt {n : Nat} (hn : 1 ≤ n) : ⌊(n : ℚ) * 0.99⌋₊ < n := by
  rw [floor_mul_99]; omega

/-- Claim C22. The clamp of the percentile index is never needed and the indexing never
goes out of bounds: for every n ≥ 1, floor(n × 0.95) ≤ n − 1 and floor(n × 0.99) ≤ n − 1,
so the conditions `p95Index >= len(sorted)` and `p99Index >= len(sorted)` are false, the
index is the floor itself, and on non-empty input `sorted[p95Index]` and `sorted[p99Index]`
are entries of the sorted copy, in `calculateStats` and in `calculateStatsInt`. -/
theorem percentileIndex_clamp_unreachable (n : Nat) (values : List ℚ) (ivalues : List Int)
    (hn : 1 ≤ n) (hv : values ≠ []) (hiv : ivalues ≠ []) :
    ⌊(n : ℚ) * 0.95⌋₊ ≤ n - 1 ∧ ⌊(n : ℚ) * 0.99⌋₊ ≤ n - 1 ∧
    ¬ (⌊(n : ℚ) * 0.95⌋₊ ≥ n) ∧ ¬ (⌊(n : ℚ) * 0.99⌋₊ ≥ n) ∧
    percentileIndex n 0.95 = ⌊(n : ℚ) * 0.95⌋₊ ∧
    percentileIndex n 0.99 = ⌊(n : ℚ) * 0.99⌋₊ ∧
    (sortFloat64s values)[⌊((sortFloat64s values).length : ℚ) * 0.95⌋₊]?
      = some (calculateStats values).p95 ∧
    (sortFloat64s values)[⌊((sortFloat64s values).length : ℚ) * 0.99⌋₊]?
      = some (calculateStats values).p99 ∧
    (sortSlice ivalues)[⌊((sortSlice ivalues).length : ℚ) * 0.95⌋₊]?
      = some (calculateStatsInt ivalues).p95 ∧
    (sortSlice ivalues)[⌊((sortSlice ivalues).length : ℚ) * 0.99⌋₊]?
      = some (calculateStatsInt ivalues).p99 := by
  have a95 := floor_mul_95_lt hn
  have a99 := floor_mul_99_lt hn
  have n1 : 1 ≤ values.length := List.length_pos.mpr hv
  have n2 : 1 ≤ ivalues.length := List.length_pos.mpr hiv
  have e95 : ∀ {k : Nat}, 1 ≤ k → percentileIndex k 0.95 = ⌊(k : ℚ) * 0.95⌋₊ := by
    intro k hk
    have := floor_mul_95_lt hk
    rw [percentileIndex_eq_min]; omega
  have e99 : ∀ {k : Nat}, 1 ≤ k → percentileIndex k 0.99 = ⌊(k : ℚ) * 0.99⌋₊ := by
    intro k hk
    have := floor_mul_99_lt hk
    rw [percentileIndex_eq_min]; omega
  refine ⟨by omega, by omega, by omega, by omega, e95 hn, e99 hn, ?_, ?_, ?_, ?_⟩
  · rw [calculateStats_of_ne_nil hv, sortFloat64s_length, ← e95 n1]
    exact getElem?_eq_some_getD _ 0 (by rw [sortFloat64s_length]; exact percentileIndex_lt _ n1)
  · rw [calculateStats_of_ne_nil hv, sortFloat64s_length, ← e99 n1]
    exact getElem?_eq_some_getD _ 0 (by rw [sortFloat64s_length]; exact percentileIndex_lt _ n1)
  · rw [calculateStatsInt_of_ne_nil hiv, sortSlice_length, ← e95 n2]
    exact getElem?_eq_some_getD _ 0 (by rw [sortSlice_length]; exact percentileIndex_lt _ n2)
  · rw [calculateStatsInt_of_ne_nil hiv, sortSlice_length, ← e99 n2]
    exact getElem?_eq_some_getD _ 0 (by rw [sortSlice_length]; exact percentileIndex_lt _ n2)

/-- Witness of claim C22 at n = 20 and at the samples `[3, 1, 2]` and `[30, 10, 20]`. -/
theorem percentileIndex_clamp_unreachable_witness :
    1 ≤ 20 ∧ ([3, 1, 2] : List ℚ) ≠ [] ∧ ([30, 10, 20] : List Int) ≠ [] ∧
    ⌊((20 : Nat) : ℚ) * 0.95⌋₊ ≤ 20 - 1 ∧ ⌊((20 : Nat) : ℚ) * 0.99⌋₊ ≤ 20 - 1 ∧
    percentileIndex 20 0.95 = ⌊((20 : Nat) : ℚ) * 0.95⌋₊ ∧
    (sortFloat64s [3, 1, 2])[⌊((sortFloat64s [3, 1, 2]).length : ℚ) * 0.95⌋₊]?
      = some (calculateStats [3, 1, 2]).p95 := by
  have t := percentileIndex_clamp_unreachable 20 [3, 1, 2] [30, 10, 20] (by decide) (by simp)
    (by simp)
  exact ⟨by decide, by simp, by simp, t.1, t.2.1, t.2.2.2.2.1, t.2.2.2.2.2.2.1⟩

theorem percentileIndex_95_of_le_20 {n : Nat} (h : n ≤ 20) : percentileIndex n 0.95 = n - 1 := by
  rw [percentileIndex_95]; omega

theorem percentileIndex_99_of_le_100 {n : Nat} (h : n ≤ 100) :
    percentileIndex n 0.99 = n - 1 := by
  rw [percentileIndex_99]; omega

/-- The statistics fields of the record `analyzeContainer` returns on a non-empty window. -/
theorem analyzeContainer_stats_fields (ovf : Int) (cfg : AnalysisConfig)
    (rows : List (ℚ × Int)) (request : Option (ℚ × Int)) (h : rows ≠ []) :
    ∃ a, analyzeContainer ovf cfg rows request = Except.ok a ∧
      a.avgCPU = (calculateStats (rows.map Prod.fst)).avg ∧
      a.maxCPU = (calculateStats (rows.map Prod.fst)).max ∧
      a.p95CPU = (calculateStats (rows.map Prod.fst)).p95 ∧
      a.p99CPU = (calculateStats (rows.map Prod.fst)).p99 ∧
      a.avgMem = (calculateStatsInt (rows.map Prod.snd)).avg ∧
      a.maxMem = (calculateStatsInt (rows.map Prod.snd)).max ∧
      a.p95Mem = (calculateStatsInt (rows.map Prod.snd)).p95 ∧
      a.p99Mem = (calculateStatsInt (rows.map Prod.snd)).p99 := by
  have hl : (rows.map Prod.fst).length ≠ 0 := by
    rw [List.length_map]; exact fun h0 => h (List.length_eq_zero.mp h0)
  unfold analyzeContainer
  simp only [hl, if_false]
  exact ⟨_, rfl, rfl, rfl, rfl, rfl, rfl, rfl, rfl, rfl⟩


/-- Claim C23. For every non-empty sample list with at most 20 samples, `calculateStats`
and `calculateStatsInt` return p95 = p99 = max, and p99 = max for every non-empty list
with at most 100 samples; consequently every analysis of fewer than 20 samples (the
low-confidence ones) recommends 1.2 × the maximum observed usage, subject to the floors. -/
theorem calculateStats_small_window (values : List ℚ) (ivalues : List Int) (ovf : Int)
    (cfg : AnalysisConfig) (rows : List (ℚ × Int)) (request : Option (ℚ × Int))
    (hv : values ≠ []) (hiv : ivalues ≠ []) (h : rows ≠ []) :
    (values.length ≤ 20 →
      (calculateStats values).p95 = (calculateStats values).max ∧
      (calculateStats values).p99 = (calculateStats values).max) ∧
    (values.length ≤ 100 → (calculateStats values).p99 = (calculateStats values).max) ∧
    (ivalues.length ≤ 20 →
      (calculateStatsInt ivalues).p95 = (calculateStatsInt ivalues).max ∧
      (calculateStatsInt ivalues).p99 = (calculateStatsInt ivalues).max) ∧
    (ivalues.length ≤ 100 →
      (calculateStatsInt ivalues).p99 = (calculateStatsInt ivalues).max) ∧
    (rows.length < 20 →
      ∃ a, analyzeContainer ovf cfg rows request = Except.ok a ∧
        a.confidence = "low" ∧
        a.maxCPU = (calculateStats (rows.map Prod.fst)).max ∧
        a.maxMem = (calculateStatsInt (rows.map Prod.snd)).max ∧
        a.recommendedCPU = max 0.01 (a.maxCPU * 1.2) ∧
        a.recommendedMem = max 33554432 (f64ToInt64 ovf ((a.maxMem : ℚ) * 1.2))) := by
  have s95 : ∀ {l : List ℚ}, l ≠ [] → l.length ≤ 20 →
      (calculateStats l).p95 = (calculateStats l).max := by
    intro l hl hlen
    rw [calculateStats_of_ne_nil hl]
    simp only [percentileIndex_95_of_le_20 hlen]
  have s99 : ∀ {l : List ℚ}, l ≠ [] → l.length ≤ 100 →
      (calculateStats l).p99 = (calculateStats l).max := by
    intro l hl hlen
    rw [calculateStats_of_ne_nil hl]
    simp only [percentileIndex_99_of_le_100 hlen]
  have i95 : ∀ {l : List Int}, l ≠ [] → l.length ≤ 20 →
      (calculateStatsInt l).p95 = (calculateStatsInt l).max := by
    intro l hl hlen
    rw [calculateStatsInt_of_ne_nil hl]
    simp only [percentileIndex_95_of_le_20 hlen]
  have i99 : ∀ {l : List Int}, l ≠ [] → l.length ≤ 100 →
      (calculateStatsInt l).p99 = (calculateStatsInt l).max := by
    intro l hl hlen
    rw [calculateStatsInt_of_ne_nil hl]
    simp only [percentileIndex_99_of_le_100 hlen]
  refine ⟨fun hl => ⟨s95 hv hl, s99 hv (by omega)⟩, s99 hv,
    fun hl => ⟨i95 hiv hl, i99 hiv (by omega)⟩, i99 hiv, fun hlen => ?_⟩
  obtain ⟨a, ha, n1, -, -, -, -, r1, r2, -, -, -, -, hc⟩ :=
    analyzeContainer_fields ovf cfg rows request h
  obtain ⟨b, hb, -, m1, p1, -, -, m2, p2, -⟩ := analyzeContainer_stats_fields ovf cfg rows request h
  rw [ha] at hb
  cases hb
  have hm : (rows.map Prod.fst) ≠ [] := by simpa using h
  have hm2 : (rows.map Prod.snd) ≠ [] := by simpa using h
  have e1 : a.p95CPU = a.maxCPU := by
    rw [p1, m1]; exact s95 hm (by rw [List.length_map]; omega)
  have e2 : a.p95Mem = a.maxMem := by
    rw [p2, m2]; exact i95 hm2 (by rw [List.length_map]; omega)
  refine ⟨a, ha, ?_, m1, m2, ?_, ?_⟩
  · rw [hc, n1, if_neg (by omega), if_neg (by omega)]
  · rw [r1, e1, max_def]
    split_ifs with p q q
    · exact absurd p (not_lt.mpr q)
    · rfl
    · rfl
    · exact absurd (not_lt.mp p) q
  · rw [r2, e2, max_def]
    split_ifs with p q q
    · omega
    · rfl
    · rfl
    · omega

/-- Witness of claim C23 at the samples `[3, 1, 2]` and `[30, 10, 20]` and at a window of
two snapshots. -/
theorem calculateStats_small_window_witness :
    ([3, 1, 2] : List ℚ) ≠ [] ∧ ([30, 10, 20] : List Int) ≠ [] ∧
    ([(2, 100000000), (1, 90000000)] : List (ℚ × Int)) ≠ [] ∧
    ([3, 1, 2] : List ℚ).length ≤ 20 ∧ ([30, 10, 20] : List Int).length ≤ 20 ∧
    ([(2, 100000000), (1, 90000000)] : List (ℚ × Int)).length < 20 ∧
    ((calculateStats [3, 1, 2]).p95 = (calculateStats [3, 1, 2]).max ∧
      (calculateStats [3, 1, 2]).p99 = (calculateStats [3, 1, 2]).max) ∧
    ((calculateStatsInt [30, 10, 20]).p95 = (calculateStatsInt [30, 10, 20]).max ∧
      (calculateStatsInt [30, 10, 20]).p99 = (calculateStatsInt [30, 10, 20]).max) ∧
    ∃ a, analyzeContainer 0 { CPUCostPerCore := 30, MemoryCostPerGB := 10 }
        [(2, 100000000), (1, 90000000)] none = Except.ok a ∧
      a.confidence = "low" ∧
      a.maxCPU = (calculateStats
        (([(2, 100000000), (1, 90000000)] : List (ℚ × Int)).map Prod.fst)).max ∧
      a.maxMem = (calculateStatsInt
        (([(2, 100000000), (1, 90000000)] : List (ℚ × Int)).map Prod.snd)).max ∧
      a.recommendedCPU = max 0.01 (a.maxCPU * 1.2) ∧
      a.recommendedMem = max 33554432 (f64ToInt64 0 ((a.maxMem : ℚ) * 1.2)) := by
  have t := calculateStats_small_window [3, 1, 2] [30, 10, 20] 0
    { CPUCostPerCore := 30, MemoryCostPerGB := 10 } [(2, 100000000), (1, 90000000)] none
    (by simp) (by simp) (by simp)
  exact ⟨by simp, by simp, by simp, by simp, by simp, by simp, t.1 (by simp),
    t.2.2.1 (by simp), t.2.2.2.2 (by simp)⟩

/-- Claim C27. The statistics do not depend on the order of the samples: for every sample
list and every permutation of it, `calculateStatsInt` returns the same four values, and
so does `calculateStats` over exact arithmetic. -/
theorem calculateStats_perm (xs ys : List ℚ) (ixs iys : List Int)
    (h : ys.Perm xs) (hi : iys.Perm ixs) :
    calculateStats ys = calculateStats xs ∧ calculateStatsInt iys = calculateStatsInt ixs := by
  constructor
  · rcases eq_or_ne xs [] with hx | hx
    · subst hx
      rw [List.Perm.eq_nil h]
    · have hy : ys ≠ [] := fun h0 => hx (List.Perm.eq_nil (h0 ▸ h.symm))
      have hs : sortFloat64s ys = sortFloat64s xs :=
        eq_insertionSort_of_sorted_perm (List.sorted_insertionSort (· ≤ ·) ys)
          ((List.perm_insertionSort (· ≤ ·) ys).trans h)
      rw [calculateStats_of_ne_nil hx, calculateStats_of_ne_nil hy, hs, h.length_eq,
        foldl_add_eq_sum, foldl_add_eq_sum, h.sum_eq]
  · rcases eq_or_ne ixs [] with hx | hx
    · subst hx
      rw [List.Perm.eq_nil hi]
    · have hy : iys ≠ [] := fun h0 => hx (List.Perm.eq_nil (h0 ▸ hi.symm))
      have hs : sortSlice iys = sortSlice ixs :=
        eq_insertionSort_of_sorted_perm (List.sorted_insertionSort (· ≤ ·) iys)
          ((List.perm_insertionSort (· ≤ ·) iys).trans hi)
      rw [calculateStatsInt_of_ne_nil hx, calculateStatsInt_of_ne_nil hy, hs, hi.length_eq,
        foldl_wrapInt64_zero, foldl_wrapInt64_zero, hi.sum_eq]

/-- Witness of claim C27 at `[1, 3, 2]` against `[3, 1, 2]` and `[10, 30, 20]` against
`[30, 10, 20]`. -/
theorem calculateStats_perm_witness :
    ([1, 3, 2] : List ℚ).Perm [3, 1, 2] ∧ ([10, 30, 20] : List Int).Perm [30, 10, 20] ∧
    calculateStats [1, 3, 2] = calculateStats [3, 1, 2] ∧
    calculateStatsInt [10, 30, 20] = calculateStatsInt [30, 10, 20] :=
  ⟨by decide, by decide, calculateStats_perm [3, 1, 2] [1, 3, 2] [30, 10, 20] [10, 30, 20]
    (by decide) (by decide)⟩


/-! ## Further properties of the recommendation -/

/-- On a non-empty window: the recommendation is positive, the two waste values in terms
of it without the wrap-around, and the savings, for `int64` inputs. -/
theorem analyzeContainer_waste_fields (ovf : Int) (cfg : AnalysisConfig)
    (rows : List (ℚ × Int)) (request : Option (ℚ × Int)) (h : rows ≠ [])
    (hovf : InInt64 ovf) (hreq : ∀ r, request = some r → InInt64 r.2) :
    ∃ a, analyzeContainer ovf cfg rows request = Except.ok a ∧
      0.01 ≤ a.recommendedCPU ∧ 33554432 ≤ a.recommendedMem ∧
      a.cpuWaste = (if 0 < a.currentCPU then
        max (-100) ((a.currentCPU - a.recommendedCPU) / a.currentCPU * 100) else 0) ∧
      a.memWaste = (if 0 < a.currentMem then
        max (-100) (((a.currentMem - a.recommendedMem : Int) : ℚ) / (a.currentMem : ℚ) * 100)
        else 0) ∧
      a.monthlySavings = max 0
        ((if 0 < a.cpuWaste then (a.currentCPU - a.recommendedCPU) * cfg.CPUCostPerCore
            else 0)
          + (if 0 < a.memWaste then
              ((a.currentMem - a.recommendedMem : Int) : ℚ) / 1073741824 * cfg.MemoryCostPerGB
            else 0)) := by
  obtain ⟨a, ha, -, -, -, -, c2, hc, hm, w1, w2, s, -⟩ :=
    analyzeContainer_fields ovf cfg rows request h
  have hcur : InInt64 a.currentMem := by
    rw [c2]
    cases request with
    | none => decide
    | some r => exact hreq r rfl
  have hrec := recommendedMem_inInt64 hovf ((a.p95Mem : ℚ) * 1.2)
  rw [← hm] at hrec
  have hw : 0 < a.currentMem →
      wrapInt64 (a.currentMem - a.recommendedMem) = a.currentMem - a.recommendedMem :=
    fun hpos => wrapInt64_sub_of_pos hcur hpos hrec.1 hrec.2
  have mw : a.memWaste = (if 0 < a.currentMem then
      max (-100) (((a.currentMem - a.recommendedMem : Int) : ℚ) / (a.currentMem : ℚ) * 100)
      else 0) := by
    rw [w2, clamp_eq_max]
    by_cases hpos : 0 < a.currentMem
    · rw [if_pos hpos, if_pos hpos, hw hpos]
    · rw [if_neg hpos, if_neg hpos]; norm_num
  refine ⟨a, ha, ?_, ?_, ?_, mw, ?_⟩
  · rw [hc]; split
    · exact le_refl _
    · exact not_lt.mp ‹_›
  · rw [hm]; split <;> omega
  · rw [w1, clamp_eq_max]
    by_cases hpos : 0 < a.currentCPU
    · rw [if_pos hpos, if_pos hpos]
    · rw [if_neg hpos, if_neg hpos]; norm_num
  · rw [s, floor_eq_max]
    by_cases hmw : 0 < a.memWaste
    · have hpos : 0 < a.currentMem := by
        by_contra hn
        rw [mw, if_neg hn] at hmw
        exact lt_irrefl _ hmw
      rw [hw hpos]
    · simp only [gt_iff_lt, hmw, if_false]

theorem waste_lt_hundred {cur recm : ℚ} (hc : 0 < cur) (hr : 0 < recm) :
    max (-100) ((cur - recm) / cur * 100) < 100 := by
  apply max_lt (by norm_num)
  have e : (cur - recm) / cur * 100 = 100 - recm / cur * 100 := by
    field_simp
    ring
  rw [e]
  have : 0 < recm / cur * 100 := by positivity
  linarith

theorem waste_pos_iff {cur recm : ℚ} (hc : 0 < cur) :
    0 < max (-100) ((cur - recm) / cur * 100) ↔ 0 < cur - recm := by
  constructor
  · intro h
    rcases lt_max_iff.mp h with h1 | h1
    · norm_num at h1
    · by_contra hn
      have : (cur - recm) / cur * 100 ≤ 0 :=
        mul_nonpos_of_nonpos_of_nonneg (div_nonpos_of_nonpos_of_nonneg (not_lt.mp hn) hc.le)
          (by norm_num)
      linarith
  · intro h
    exact lt_max_iff.mpr (Or.inr (by positivity))

/-- Claim C24. Although `analyzeContainer` clamps waste only from below, waste is bounded
above: the CPU waste percentage and the memory waste percentage are strictly less than
100 (in exact arithmetic), because the recommended value is at least the positive floor;
with the lower clamp every waste lies in [−100, 100). -/
theorem analyzeContainer_waste_lt_hundred (ovf : Int) (cfg : AnalysisConfig)
    (rows : List (ℚ × Int)) (request : Option (ℚ × Int)) (h : rows ≠ [])
    (hovf : InInt64 ovf) (hreq : ∀ r, request = some r → InInt64 r.2) :
    ∃ a, analyzeContainer ovf cfg rows request = Except.ok a ∧
      0 < a.recommendedCPU ∧ 0 < a.recommendedMem ∧
      -100 ≤ a.cpuWaste ∧ a.cpuWaste < 100 ∧
      -100 ≤ a.memWaste ∧ a.memWaste < 100 := by
  obtain ⟨a, ha, r1, r2, w1, w2, -⟩ :=
    analyzeContainer_waste_fields ovf cfg rows request h hovf hreq
  have p1 : 0 < a.recommendedCPU := by norm_num at r1; linarith
  have p2 : 0 < a.recommendedMem := by omega
  refine ⟨a, ha, p1, p2, ?_, ?_, ?_, ?_⟩
  · rw [w1]; split
    · exact le_max_left _ _
    · norm_num
  · rw [w1]; split
    · exact waste_lt_hundred ‹_› p1
    · norm_num
  · rw [w2]; split
    · exact le_max_left _ _
    · norm_num
  · rw [w2]; split
    · rename_i hpos
      have hq : (0 : ℚ) < (a.currentMem : ℚ) := by exact_mod_cast hpos
      have hr : (0 : ℚ) < (a.recommendedMem : ℚ) := by exact_mod_cast p2
      have := waste_lt_hundred hq hr
      push_cast
      exact this
    · norm_num

/-- Witness of claim C24 at a window of two samples and a request of 1 core, 256 MiB. -/
theorem analyzeContainer_waste_lt_hundred_witness :
    ([(1 / 2, 100000000), (1 / 4, 90000000)] : List (ℚ × Int)) ≠ [] ∧ InInt64 0 ∧
    (∀ r : ℚ × Int, some ((1 : ℚ), (268435456 : Int)) = some r → InInt64 r.2) ∧
    ∃ a, analyzeContainer 0 { CPUCostPerCore := 30, MemoryCostPerGB := 10 }
        [(1 / 2, 100000000), (1 / 4, 90000000)] (some (1, 268435456)) = Except.ok a ∧
      0 < a.recommendedCPU ∧ 0 < a.recommendedMem ∧
      -100 ≤ a.cpuWaste ∧ a.cpuWaste < 100 ∧
      -100 ≤ a.memWaste ∧ a.memWaste < 100 :=
  ⟨by simp, by decide, by rintro r ⟨⟩; decide,
    analyzeContainer_waste_lt_hundred 0 { CPUCostPerCore := 30, MemoryCostPerGB := 10 }
      [(1 / 2, 100000000), (1 / 4, 90000000)] (some (1, 268435456)) (by simp) (by decide)
      (by rintro r ⟨⟩; decide)⟩


/-- Claim C25. When the configured cost per core and cost per GiB are both positive, the
monthly savings computed by `analyzeContainer` are strictly positive iff the CPU waste or
the memory waste is strictly positive, and are 0 otherwise; every over-provisioned
analysis has positive savings, and the final floor at 0 does not change the value: the
savings are the sum of the two parts. -/
theorem analyzeContainer_savings_pos_iff (ovf : Int) (cfg : AnalysisConfig)
    (rows : List (ℚ × Int)) (request : Option (ℚ × Int)) (h : rows ≠ [])
    (hovf : InInt64 ovf) (hreq : ∀ r, request = some r → InInt64 r.2)
    (hcc : 0 < cfg.CPUCostPerCore) (hmc : 0 < cfg.MemoryCostPerGB) :
    ∃ a, analyzeContainer ovf cfg rows request = Except.ok a ∧
      (0 < a.monthlySavings ↔ (0 < a.cpuWaste ∨ 0 < a.memWaste)) ∧
      (¬ (0 < a.cpuWaste ∨ 0 < a.memWaste) → a.monthlySavings = 0) ∧
      (a.status = "over-provisioned" → 0 < a.monthlySavings) ∧
      a.monthlySavings =
        (if 0 < a.cpuWaste then (a.currentCPU - a.recommendedCPU) * cfg.CPUCostPerCore
          else 0)
        + (if 0 < a.memWaste then
            ((a.currentMem - a.recommendedMem : Int) : ℚ) / 1073741824 * cfg.MemoryCostPerGB
          else 0) := by
  obtain ⟨a, ha, -, -, w1, w2, s⟩ :=
    analyzeContainer_waste_fields ovf cfg rows request h hovf hreq
  obtain ⟨b, hb, -, -, -, -, -, -, -, -, -, -, hs, -⟩ :=
    analyzeContainer_fields ovf cfg rows request h
  rw [ha] at hb
  cases hb
  have c1 : 0 < a.cpuWaste → 0 < (a.currentCPU - a.recommendedCPU) * cfg.CPUCostPerCore := by
    intro hw
    have hpos : 0 < a.currentCPU := by
      by_contra hn
      rw [w1, if_neg hn] at hw
      exact lt_irrefl _ hw
    rw [w1, if_pos hpos] at hw
    exact mul_pos ((waste_pos_iff hpos).mp hw) hcc
  have c2 : 0 < a.memWaste →
      0 < ((a.currentMem - a.recommendedMem : Int) : ℚ) / 1073741824 * cfg.MemoryCostPerGB := by
    intro hw
    have hpos : 0 < a.currentMem := by
      by_contra hn
      rw [w2, if_neg hn] at hw
      exact lt_irrefl _ hw
    rw [w2, if_pos hpos] at hw
    have hq : (0 : ℚ) < (a.currentMem : ℚ) := by exact_mod_cast hpos
    have hd : (0 : ℚ) < ((a.currentMem - a.recommendedMem : Int) : ℚ) := by
      have := (@waste_pos_iff (a.currentMem : ℚ) (a.recommendedMem : ℚ) hq).mp (by push_cast at hw; exact hw)
      push_cast
      exact this
    exact mul_pos (div_pos hd (by norm_num)) hmc
  have key : (0 < a.monthlySavings ↔ (0 < a.cpuWaste ∨ 0 < a.memWaste)) ∧
      a.monthlySavings =
        (if 0 < a.cpuWaste then (a.currentCPU - a.recommendedCPU) * cfg.CPUCostPerCore
          else 0)
        + (if 0 < a.memWaste then
            ((a.currentMem - a.recommendedMem : Int) : ℚ) / 1073741824 * cfg.MemoryCostPerGB
          else 0) := by
    rw [s]
    by_cases h1 : 0 < a.cpuWaste
    · by_cases h2 : 0 < a.memWaste
      · rw [if_pos h1, if_pos h2]
        have := c1 h1
        have := c2 h2
        rw [max_eq_right (by linarith)]
        exact ⟨⟨fun _ => Or.inl h1, fun _ => by linarith⟩, rfl⟩
      · rw [if_pos h1, if_neg h2]
        have := c1 h1
        rw [max_eq_right (by linarith)]
        exact ⟨⟨fun _ => Or.inl h1, fun _ => by linarith⟩, rfl⟩
    · by_cases h2 : 0 < a.memWaste
      · rw [if_neg h1, if_pos h2]
        have := c2 h2
        rw [max_eq_right (by linarith)]
        exact ⟨⟨fun _ => Or.inr h2, fun _ => by linarith⟩, rfl⟩
      · rw [if_neg h1, if_neg h2]
        rw [max_eq_right (by norm_num)]
        refine ⟨⟨fun hh => ?_, fun hh => ?_⟩, rfl⟩
        · norm_num at hh
        · rcases hh with hh | hh
          · exact absurd hh h1
          · exact absurd hh h2
  refine ⟨a, ha, key.1, fun hno => ?_, fun hover => ?_, key.2⟩
  · have hle : ¬ 0 < a.monthlySavings := fun hh => hno (key.1.mp hh)
    rw [s] at hle ⊢
    exact le_antisymm (not_lt.mp hle) (le_max_left _ _)
  · apply key.1.mpr
    by_cases h1 : a.cpuWaste > 30 ∨ a.memWaste > 30
    · rcases h1 with h1 | h1
      · left; linarith
      · right; linarith
    · rw [hs, if_neg h1] at hover
      split at hover
      · exact absurd hover (by decide)
      · exact absurd hover (by decide)

/-- Witness of claim C25 at the default costs of `config.Load`, a window of two samples and
a request of 1 core, 256 MiB. -/
theorem analyzeContainer_savings_pos_iff_witness :
    ([(1 / 2, 100000000), (1 / 4, 90000000)] : List (ℚ × Int)) ≠ [] ∧ InInt64 0 ∧
    (∀ r : ℚ × Int, some ((1 : ℚ), (268435456 : Int)) = some r → InInt64 r.2) ∧
    (0 : ℚ) < ({ CPUCostPerCore := 30, MemoryCostPerGB := 10 } : AnalysisConfig).CPUCostPerCore ∧
    (0 : ℚ) < ({ CPUCostPerCore := 30, MemoryCostPerGB := 10 } : AnalysisConfig).MemoryCostPerGB ∧
    ∃ a, analyzeContainer 0 { CPUCostPerCore := 30, MemoryCostPerGB := 10 }
        [(1 / 2, 100000000), (1 / 4, 90000000)] (some (1, 268435456)) = Except.ok a ∧
      (0 < a.monthlySavings ↔ (0 < a.cpuWaste ∨ 0 < a.memWaste)) ∧
      (a.status = "over-provisioned" → 0 < a.monthlySavings) := by
  have hc : (0 : ℚ) <
      ({ CPUCostPerCore := 30, MemoryCostPerGB := 10 } : AnalysisConfig).CPUCostPerCore := by
    norm_num
  have hm : (0 : ℚ) <
      ({ CPUCostPerCore := 30, MemoryCostPerGB := 10 } : AnalysisConfig).MemoryCostPerGB := by
    norm_num
  obtain ⟨a, ha, h1, -, h3, -⟩ := analyzeContainer_savings_pos_iff 0
    { CPUCostPerCore := 30, MemoryCostPerGB := 10 }
    [(1 / 2, 100000000), (1 / 4, 90000000)] (some (1, 268435456)) (by simp) (by decide)
    (by rintro r ⟨⟩; decide) hc hm
  exact ⟨by simp, by decide, by rintro r ⟨⟩; decide, hc, hm, a, ha, h1, h3⟩


/-! ## Requests recorded as zero -/

/-- Claim C26. For a container that declares no requests (a nil map, or quantities that
read 0), `storeContainer` records, when its two statements succeed, one more row in
`resource_requests` whose CPU request and memory request are 0; and for current requests
read back as 0 and 0, `analyzeContainer` returns, for every non-empty window, whatever
the observed usage, an analysis with CPU waste 0, memory waste 0, monthly savings 0 and
status optimal. -/
theorem analyzeContainer_zero_request_optimal (ovf : Int) (cfg : AnalysisConfig)
    (rows : List (ℚ × Int)) (c : Collector) (w : World) (s : State) (podID : Int)
    (ns podName : String) (container : Container) (h : rows ≠ [])
    (hreq : ∀ l, container.Requests = some l → l.cpuMilliValue = 0 ∧ l.memoryValue = 0)
    (hd1 : w.dbError s.calls = none) (hd2 : w.dbError (s.calls + 1) = none) :
    (∃ row, (c.storeContainer w s podID ns podName container).2.store.resource_requests
        = s.store.resource_requests ++ [row] ∧
      row.cpu_request = some 0 ∧ row.mem_request = some 0) ∧
    ∃ a, analyzeContainer ovf cfg rows (some (0, 0)) = Except.ok a ∧
      a.currentCPU = 0 ∧ a.currentMem = 0 ∧
      a.cpuWaste = 0 ∧ a.memWaste = 0 ∧ a.monthlySavings = 0 ∧ a.status = "optimal" := by
  constructor
  · unfold Collector.storeContainer
    simp only [hd1, hd2]
    rw [storeMetrics_resource_requests]
    unfold Store.insertResourceRequest
    simp only [upsertContainer_resource_requests]
    refine ⟨_, rfl, ?_, ?_⟩
    · cases hr : container.Requests with
      | none => rfl
      | some l =>
        have := (hreq l hr).1
        simp only [this]
        norm_num
    · cases hr : container.Requests with
      | none => rfl
      | some l =>
        have := (hreq l hr).2
        simp only [this]
  · obtain ⟨a, ha, -, -, -, c1, c2, -, -, w1, w2, sv, hs, -⟩ :=
      analyzeContainer_fields ovf cfg rows (some (0, 0)) h
    simp only at c1 c2
    have hw1 : a.cpuWaste = 0 := by
      rw [w1, c1]
      norm_num
    have hw2 : a.memWaste = 0 := by
      rw [w2, c2]
      norm_num
    refine ⟨a, ha, c1, c2, hw1, hw2, ?_, ?_⟩
    · rw [sv, hw1, hw2]
      norm_num
    · rw [hs, hw1, hw2]
      norm_num

/-- Witness of claim C26: a container without requests stored into the empty database,
and a window of two samples with large usage. -/
theorem analyzeContainer_zero_request_optimal_witness :
    ([(64, 68719476736), (128, 137438953472)] : List (ℚ × Int)) ≠ [] ∧
    (∀ l, ({ Name := "app", Image := "img", Requests := none, Limits := none } :
      Container).Requests = some l → l.cpuMilliValue = 0 ∧ l.memoryValue = 0) ∧
    World.quiet.dbError ({ store := Store.empty, calls := 0 } : State).calls = none ∧
    World.quiet.dbError (({ store := Store.empty, calls := 0 } : State).calls + 1) = none ∧
    (∃ row, (Collector.default.storeContainer World.quiet { store := Store.empty, calls := 0 }
        1 "default" "web"
        { Name := "app", Image := "img", Requests := none, Limits := none }).2.store.resource_requests
        = Store.empty.resource_requests ++ [row] ∧
      row.cpu_request = some 0 ∧ row.mem_request = some 0) ∧
    ∃ a, analyzeContainer 0 { CPUCostPerCore := 30, MemoryCostPerGB := 10 }
        [(64, 68719476736), (128, 137438953472)] (some (0, 0)) = Except.ok a ∧
      a.currentCPU = 0 ∧ a.currentMem = 0 ∧
      a.cpuWaste = 0 ∧ a.memWaste = 0 ∧ a.monthlySavings = 0 ∧ a.status = "optimal" :=
  ⟨by simp, (by intro l hl; cases hl), rfl, rfl,
    analyzeContainer_zero_request_optimal 0 { CPUCostPerCore := 30, MemoryCostPerGB := 10 }
      [(64, 68719476736), (128, 137438953472)] Collector.default World.quiet
      { store := Store.empty, calls := 0 } 1 "default" "web"
      { Name := "app", Image := "img", Requests := none, Limits := none }
      (by simp) (by intro l hl; cases hl) rfl rfl⟩

end KubeOptimizer
